import Mathlib

/-!
Verification development for the openai-api.cpp inference gateway.

The definitions below are a shallow embedding of the C++ sources:

* `Json` models the subset of `nlohmann::json` values the embedded code
  manipulates (numbers are carried as `Int`; the embedded code never does
  arithmetic on them, it only stores and serializes them).
* `OutputChunk` embeds `include/openai_api/core/output_chunk.hpp`.
* `QueueProvider` embeds `include/openai_api/core/data_provider.hpp`; the
  `steady_clock` is made explicit as a `Nat` millisecond timestamp passed to
  every operation that reads the clock, and the mutex is dropped because each
  C++ method body is a single critical section, i.e. atomic, so an
  interleaving of method calls is a sequence of state transformations.
* `ProviderOp` is the alphabet of provider operations; `ProviderOp.run`
  replays an arbitrary interleaving.
-/

/-- Model of the `nlohmann::json` value tree used by the embedded code.
Numeric leaves are `Int` (the embedded code only stores and prints them). -/
inductive Json where
  | null : Json
  | bool (b : Bool) : Json
  | num (n : Int) : Json
  | str (s : String) : Json
  | arr (xs : List Json) : Json
  | obj (kvs : List (String × Json)) : Json

/-- Lowercase hex digit, as produced by serializers. -/
def hexDigit (n : Nat) : Char :=
  if n < 10 then Char.ofNat (48 + n) else Char.ofNat (87 + n)

/-- Four-digit hex rendering used for `\uXXXX` escapes in JSON dumps. -/
def hex4 (n : Nat) : String :=
  String.mk [hexDigit ((n / 4096) % 16), hexDigit ((n / 256) % 16),
             hexDigit ((n / 16) % 16), hexDigit (n % 16)]

/-- JSON string escaping as performed by `nlohmann::json::dump`. -/
def Json.escapeChar (c : Char) : String :=
  if c = '"' then "\\\""
  else if c = '\\' then "\\\\"
  else if c = '\n' then "\\n"
  else if c = '\r' then "\\r"
  else if c = '\t' then "\\t"
  else if c = Char.ofNat 8 then "\\b"
  else if c = Char.ofNat 12 then "\\f"
  else if c.toNat < 32 then "\\u" ++ hex4 c.toNat
  else String.singleton c

/-- Escape every character of a JSON string payload. -/
def Json.escapeString (s : String) : String :=
  s.data.foldl (fun acc c => acc ++ Json.escapeChar c) ""

mutual

/-- Compact serialization of a JSON value, as `nlohmann::json::dump()`
produces it (no spaces; object keys are kept in the order of the assoc
list, which the embedding builds in the sorted order `std::map` uses). -/
def Json.dump : Json → String
  | .null => "null"
  | .bool b => if b then "true" else "false"
  | .num n => toString n
  | .str s => "\"" ++ Json.escapeString s ++ "\""
  | .arr xs => "[" ++ Json.dumpList xs ++ "]"
  | .obj kvs => "\x7b" ++ Json.dumpObj kvs ++ "\x7d"

/-- Comma-separated dump of array elements. -/
def Json.dumpList : List Json → String
  | [] => ""
  | [x] => Json.dump x
  | x :: xs => Json.dump x ++ "," ++ Json.dumpList xs

/-- Comma-separated dump of object members. -/
def Json.dumpObj : List (String × Json) → String
  | [] => ""
  | [(k, v)] => "\"" ++ Json.escapeString k ++ "\":" ++ Json.dump v
  | (k, v) :: kvs =>
      "\"" ++ Json.escapeString k ++ "\":" ++ Json.dump v ++ "," ++ Json.dumpObj kvs

end

/-- `j.contains(key)` on an object (false on any other value, as in
`nlohmann::json` for non-object values). -/
def Json.containsKey : Json → String → Bool
  | .obj kvs, k => kvs.any (fun kv => kv.1 = k)
  | _, _ => false

/-- Key lookup on an object. -/
def Json.getKey? : Json → String → Option Json
  | .obj kvs, k => (kvs.find? (fun kv => kv.1 = k)).map Prod.snd
  | _, _ => none

/-- `j.value(key, default)` for string-typed reads: the default is returned
when the key is absent.  (The C++ call throws on a type mismatch; the
embedded call sites only read keys they produced with the right type.) -/
def Json.valueStr (j : Json) (k : String) (dflt : String) : String :=
  match Json.getKey? j k with
  | some (.str s) => s
  | _ => dflt

/-- `j.value(key, default)` for boolean-typed reads. -/
def Json.valueBool (j : Json) (k : String) (dflt : Bool) : Bool :=
  match Json.getKey? j k with
  | some (.bool b) => b
  | _ => dflt

/-- The elements of `j[key]` when it is an array, else `[]`. -/
def Json.getArr (j : Json) (k : String) : List Json :=
  match Json.getKey? j k with
  | some (.arr xs) => xs
  | _ => []

/-- `j[key] = v`: insert-or-overwrite on an object; `operator[]` on a
default-constructed (null) json first turns it into an object. -/
def Json.setKey : Json → String → Json → Json
  | .obj kvs, k, v =>
      .obj (if kvs.any (fun kv => kv.1 = k)
            then kvs.map (fun kv => if kv.1 = k then (k, v) else kv)
            else kvs ++ [(k, v)])
  | _, k, v => .obj [(k, v)]

/-- `OutputChunkType` from `core/output_chunk.hpp`. -/
inductive OutputChunkType where
  | TextDelta
  | FinalText
  | Embedding
  | Embeddings
  | JsonObject
  | AudioBytes
  | ImageBytes
  | Error
  | End
deriving DecidableEq

/-- `OutputChunk` from `core/output_chunk.hpp`.  Byte buffers are lists of
`Nat` (each element a byte value), embedding vectors carry opaque `Int`
scalars (the code never computes with them). -/
structure OutputChunk where
  type : OutputChunkType
  text : String
  embedding : List Int
  embeds : List (List Int)
  obj : Json
  bytes : List Nat
  mime_type : String
  error_message : String
  error_code : String
  model : String
  id : String
  created : Int
  index : Int

/-- The C++ default constructor: `type = End`, `created = 0`, `index = 0`,
everything else empty / default-constructed. -/
def OutputChunk.defaultChunk : OutputChunk :=
  { type := .End, text := "", embedding := [], embeds := [], obj := .null,
    bytes := [], mime_type := "", error_message := "", error_code := "",
    model := "", id := "", created := 0, index := 0 }

instance : Inhabited OutputChunk := ⟨OutputChunk.defaultChunk⟩

/-- Factory `OutputChunk::TextDelta`; `now` is the `std::time(nullptr)` read. -/
def OutputChunk.TextDelta (delta : String) (model_id : String) (now : Int) : OutputChunk :=
  { OutputChunk.defaultChunk with
    type := .TextDelta, text := delta, model := model_id, created := now }

/-- Factory `OutputChunk::FinalText`. -/
def OutputChunk.FinalText (content : String) (model_id : String) (now : Int) : OutputChunk :=
  { OutputChunk.defaultChunk with
    type := .FinalText, text := content, model := model_id, created := now }

/-- Factory `OutputChunk::BatchEmbeddings`. -/
def OutputChunk.BatchEmbeddings (embs : List (List Int)) (model_id : String) (now : Int) : OutputChunk :=
  { OutputChunk.defaultChunk with
    type := .Embeddings, embeds := embs, model := model_id, created := now }

/-- Factory `OutputChunk::Error`. -/
def OutputChunk.Error (code : String) (message : String) (now : Int) : OutputChunk :=
  { OutputChunk.defaultChunk with
    type := .Error, error_code := code, error_message := message, created := now }

/-- Factory `OutputChunk::EndMarker`. -/
def OutputChunk.EndMarker : OutputChunk := OutputChunk.defaultChunk

/-- `OutputChunk::is_end`. -/
def OutputChunk.is_end (c : OutputChunk) : Bool := c.type = .End

/-- `OutputChunk::is_error`. -/
def OutputChunk.is_error (c : OutputChunk) : Bool := c.type = .Error

/-- State of a `QueueProvider` (`core/data_provider.hpp`).  Timestamps and
the timeout are in milliseconds; `last_activity` is a `steady_clock` reading
made explicit. -/
structure QueueProvider where
  queue : List OutputChunk
  timeout : Nat
  ended : Bool
  disconnected : Bool
  last_activity : Nat

/-- The constructor `QueueProvider(timeout)`; `now` is the
`steady_clock::now()` read that initializes `last_activity_`. -/
def QueueProvider.make (timeout : Nat) (now : Nat) : QueueProvider :=
  { queue := [], timeout := timeout, ended := false, disconnected := false,
    last_activity := now }

/-- `check_timeout_locked`: when not ended and idle for more than the
timeout, flips `ended_` and reports `true`. -/
def QueueProvider.check_timeout_locked (s : QueueProvider) (now : Nat) :
    Bool × QueueProvider :=
  if s.ended then (false, s)
  else if s.timeout < now - s.last_activity then (true, { s with ended := true })
  else (false, s)

/-- `push` (both C++ overloads perform this identical state update): refuse
when ended/disconnected or timed out, else append and refresh
`last_activity_`. -/
def QueueProvider.push (s : QueueProvider) (chunk : OutputChunk) (now : Nat) :
    Bool × QueueProvider :=
  if s.ended || s.disconnected then (false, s)
  else
    match QueueProvider.check_timeout_locked s now with
    | (true, s') => (false, s')
    | (false, s') => (true, { s' with queue := s'.queue ++ [chunk], last_activity := now })

/-- `end()`: sets `ended_`. -/
def QueueProvider.end' (s : QueueProvider) : QueueProvider :=
  { s with ended := true }

/-- `disconnect()`: sets `disconnected_` and `ended_`. -/
def QueueProvider.disconnect (s : QueueProvider) : QueueProvider :=
  { s with disconnected := true, ended := true }

/-- `is_ended()`: runs the timeout check, then reports
`ended_ && queue_.empty()`. -/
def QueueProvider.is_ended (s : QueueProvider) (now : Nat) : Bool × QueueProvider :=
  let s' := (QueueProvider.check_timeout_locked s now).2
  (s'.ended && s'.queue.isEmpty, s')

/-- `is_writable()` (const, does not mutate). -/
def QueueProvider.is_writable (s : QueueProvider) (now : Nat) : Bool :=
  if s.ended || s.disconnected then false
  else decide (now - s.last_activity ≤ s.timeout)

/-- `is_alive()` (const, does not mutate). -/
def QueueProvider.is_alive (s : QueueProvider) (now : Nat) : Bool :=
  if s.disconnected || s.ended then false
  else decide (now - s.last_activity ≤ s.timeout)

/-- `reset_timeout()`. -/
def QueueProvider.reset_timeout (s : QueueProvider) (now : Nat) : QueueProvider :=
  { s with last_activity := now }

/-- The common tail of `pop`, `wait_pop` and `wait_pop_for` — the three C++
bodies end with this identical sequence: `if (check_timeout_locked())
return nullopt; if (queue_.empty()) return nullopt; ... queue_.pop();`. -/
def QueueProvider.popLocked (s : QueueProvider) (now : Nat) :
    Option OutputChunk × QueueProvider :=
  match QueueProvider.check_timeout_locked s now with
  | (true, s') => (none, s')
  | (false, s') =>
    match s'.queue with
    | [] => (none, s')
    | c :: rest => (some c, { s' with queue := rest })

/-- `pop()` (non-blocking): timeout check first, then head-or-empty. -/
def QueueProvider.pop (s : QueueProvider) (now : Nat) :
    Option OutputChunk × QueueProvider :=
  QueueProvider.popLocked s now

/-- The condition-variable predicate of `wait_pop` / `wait_pop_for`,
evaluated with C++ short-circuiting (the timeout check only runs — and can
only flip `ended_` — when the first three disjuncts are false). -/
def QueueProvider.waitPred (s : QueueProvider) (now : Nat) : Bool × QueueProvider :=
  if !s.queue.isEmpty || s.ended || s.disconnected then (true, s)
  else QueueProvider.check_timeout_locked s now

/-- `wait_pop()` evaluated at the moment `now` at which the wait predicate
fired: re-runs the timeout check, then head-or-empty. -/
def QueueProvider.wait_pop (s : QueueProvider) (now : Nat) :
    Option OutputChunk × QueueProvider :=
  QueueProvider.popLocked (QueueProvider.waitPred s now).2 now

/-- `wait_pop_for(d)` evaluated at its wake time `now`: when the predicate
did not fire within the wait (`has_data` false) it returns empty, otherwise
it behaves like `wait_pop` at `now`. -/
def QueueProvider.wait_pop_for (s : QueueProvider) (now : Nat) :
    Option OutputChunk × QueueProvider :=
  match QueueProvider.waitPred s now with
  | (false, s₁) => (none, s₁)
  | (true, s₁) => QueueProvider.popLocked s₁ now

/-- `set_timeout`. -/
def QueueProvider.set_timeout (s : QueueProvider) (t : Nat) : QueueProvider :=
  { s with timeout := t }

/-- One provider operation of an interleaving; clock-reading operations
carry their `steady_clock` timestamp. -/
inductive ProviderOp where
  | push (chunk : OutputChunk) (now : Nat)
  | pop (now : Nat)
  | waitPop (now : Nat)
  | waitPopFor (now : Nat)
  | endOp
  | disconnectOp
  | resetTimeout (now : Nat)
  | isEndedOp (now : Nat)
  | setTimeoutOp (t : Nat)

/-- The value an operation returns. -/
inductive ProviderOpResult where
  | pushRes (ok : Bool)
  | popRes (chunk : Option OutputChunk)
  | boolRes (b : Bool)
  | unitRes

/-- Execute one operation on the provider state. -/
def ProviderOp.step (s : QueueProvider) : ProviderOp → ProviderOpResult × QueueProvider
  | .push c now => let (ok, s') := QueueProvider.push s c now; (.pushRes ok, s')
  | .pop now => let (r, s') := QueueProvider.pop s now; (.popRes r, s')
  | .waitPop now => let (r, s') := QueueProvider.wait_pop s now; (.popRes r, s')
  | .waitPopFor now => let (r, s') := QueueProvider.wait_pop_for s now; (.popRes r, s')
  | .endOp => (.unitRes, QueueProvider.end' s)
  | .disconnectOp => (.unitRes, QueueProvider.disconnect s)
  | .resetTimeout now => (.unitRes, QueueProvider.reset_timeout s now)
  | .isEndedOp now => let (b, s') := QueueProvider.is_ended s now; (.boolRes b, s')
  | .setTimeoutOp t => (.unitRes, QueueProvider.set_timeout s t)

/-- Replay an interleaving of operations. -/
def ProviderOp.run (s : QueueProvider) : List ProviderOp → QueueProvider
  | [] => s
  | op :: rest => ProviderOp.run (ProviderOp.step s op).2 rest

/-- The chunks handed to `push` operations of a trace, in order. -/
def ProviderOp.pushes : List ProviderOp → List OutputChunk
  | [] => []
  | .push c _ :: rest => c :: ProviderOp.pushes rest
  | _ :: rest => ProviderOp.pushes rest

/-- The chunks returned (non-empty) by the pop-family operations of a
trace, in order. -/
def ProviderOp.pops (s : QueueProvider) : List ProviderOp → List OutputChunk
  | [] => []
  | op :: rest =>
    match ProviderOp.step s op with
    | (.popRes (some c), s') => c :: ProviderOp.pops s' rest
    | (_, s') => ProviderOp.pops s' rest

/-- Every `push` of the trace succeeds. -/
def ProviderOp.allPushesSucceed (s : QueueProvider) : List ProviderOp → Bool
  | [] => true
  | op :: rest =>
    let (r, s') := ProviderOp.step s op
    (match op, r with
     | .push _ _, .pushRes ok => ok
     | _, _ => true) && ProviderOp.allPushesSucceed s' rest

/-- The trace contains no `end()` and no `disconnect()`. -/
def ProviderOp.noTerminal : List ProviderOp → Bool
  | [] => true
  | .endOp :: _ => false
  | .disconnectOp :: _ => false
  | _ :: rest => ProviderOp.noTerminal rest

/-! Basic lemmas about the provider transition functions. -/

/-- The timeout check either leaves the state alone or (only when not yet
ended) flips `ended_`. -/
theorem check_timeout_cases (s : QueueProvider) (now : Nat) :
    QueueProvider.check_timeout_locked s now = (false, s)
    ∨ (s.ended = false
       ∧ QueueProvider.check_timeout_locked s now = (true, { s with ended := true })) := by
  unfold QueueProvider.check_timeout_locked
  by_cases h : s.ended
  · left; simp [h]
  · by_cases ht : s.timeout < now - s.last_activity
    · right
      refine ⟨by simpa using h, ?_⟩
      simp [h, ht]
    · left; simp [h, ht]

/-- On an already-ended provider the timeout check is the identity. -/
theorem check_timeout_of_ended (s : QueueProvider) (now : Nat) (h : s.ended = true) :
    QueueProvider.check_timeout_locked s now = (false, s) := by
  simp [QueueProvider.check_timeout_locked, h]

/-- The timeout check never touches the queue. -/
theorem check_timeout_queue (s : QueueProvider) (now : Nat) :
    ((QueueProvider.check_timeout_locked s now).2).queue = s.queue := by
  rcases check_timeout_cases s now with h | ⟨_, h⟩ <;> simp [h]

/-- The timeout check never clears `ended_`. -/
theorem check_timeout_ended_mono (s : QueueProvider) (now : Nat) (h : s.ended = true) :
    ((QueueProvider.check_timeout_locked s now).2).ended = true := by
  simp [check_timeout_of_ended s now h, h]

/-- The timeout check never touches `disconnected_`. -/
theorem check_timeout_disconnected (s : QueueProvider) (now : Nat) :
    ((QueueProvider.check_timeout_locked s now).2).disconnected = s.disconnected := by
  rcases check_timeout_cases s now with h | ⟨_, h⟩ <;> simp [h]

/-- A push on an ended provider fails and changes nothing. -/
theorem push_of_ended (s : QueueProvider) (c : OutputChunk) (now : Nat)
    (h : s.ended = true) : QueueProvider.push s c now = (false, s) := by
  simp [QueueProvider.push, h]

/-- A successful push appends the chunk to the back of the queue. -/
theorem push_true_queue (s : QueueProvider) (c : OutputChunk) (now : Nat)
    (h : (QueueProvider.push s c now).1 = true) :
    ((QueueProvider.push s c now).2).queue = s.queue ++ [c] := by
  unfold QueueProvider.push at *
  by_cases he : s.ended || s.disconnected
  · simp [he] at h
  · rcases check_timeout_cases s now with hc | ⟨_, hc⟩
    · simp [he, hc]
    · simp [he, hc] at h

/-- The wait predicate fires immediately (leaving the state alone) on an
ended provider. -/
theorem waitPred_of_ended (s : QueueProvider) (now : Nat) (h : s.ended = true) :
    QueueProvider.waitPred s now = (true, s) := by
  simp [QueueProvider.waitPred, h]

/-- The wait predicate never touches the queue. -/
theorem waitPred_queue (s : QueueProvider) (now : Nat) :
    ((QueueProvider.waitPred s now).2).queue = s.queue := by
  unfold QueueProvider.waitPred
  split
  · rfl
  · exact check_timeout_queue s now

/-- `popLocked` either returns nothing and leaves the queue alone, or
removes and returns the head. -/
theorem popLocked_cases (s : QueueProvider) (now : Nat) :
    ((QueueProvider.popLocked s now).1 = none
       ∧ ((QueueProvider.popLocked s now).2).queue = s.queue)
    ∨ (∃ c rest, s.queue = c :: rest ∧ (QueueProvider.popLocked s now).1 = some c
        ∧ ((QueueProvider.popLocked s now).2).queue = rest) := by
  unfold QueueProvider.popLocked
  rcases check_timeout_cases s now with h | ⟨_, h⟩
  · rw [h]
    cases hq : s.queue with
    | nil => left; simp [hq]
    | cons c rest => right; exact ⟨c, rest, rfl, by simp [hq], by simp [hq]⟩
  · rw [h]
    left; simp

/-- `pop` either returns nothing and leaves the queue alone, or removes and
returns the head. -/
theorem pop_cases (s : QueueProvider) (now : Nat) :
    ((QueueProvider.pop s now).1 = none ∧ ((QueueProvider.pop s now).2).queue = s.queue)
    ∨ (∃ c rest, s.queue = c :: rest ∧ (QueueProvider.pop s now).1 = some c
        ∧ ((QueueProvider.pop s now).2).queue = rest) :=
  popLocked_cases s now

/-- `wait_pop` either returns nothing and leaves the queue alone, or removes
and returns the head. -/
theorem wait_pop_cases (s : QueueProvider) (now : Nat) :
    ((QueueProvider.wait_pop s now).1 = none ∧ ((QueueProvider.wait_pop s now).2).queue = s.queue)
    ∨ (∃ c rest, s.queue = c :: rest ∧ (QueueProvider.wait_pop s now).1 = some c
        ∧ ((QueueProvider.wait_pop s now).2).queue = rest) := by
  unfold QueueProvider.wait_pop
  have hq₀ := waitPred_queue s now
  rcases popLocked_cases (QueueProvider.waitPred s now).2 now with ⟨h1, h2⟩ | ⟨c, rest, hq, h1, h2⟩
  · left; exact ⟨h1, by rw [h2, hq₀]⟩
  · right; exact ⟨c, rest, by rw [← hq₀, hq], h1, h2⟩

/-- `wait_pop_for` either returns nothing and leaves the queue alone, or
removes and returns the head. -/
theorem wait_pop_for_cases (s : QueueProvider) (now : Nat) :
    ((QueueProvider.wait_pop_for s now).1 = none
       ∧ ((QueueProvider.wait_pop_for s now).2).queue = s.queue)
    ∨ (∃ c rest, s.queue = c :: rest ∧ (QueueProvider.wait_pop_for s now).1 = some c
        ∧ ((QueueProvider.wait_pop_for s now).2).queue = rest) := by
  unfold QueueProvider.wait_pop_for
  have hq₀ := waitPred_queue s now
  rcases hw : QueueProvider.waitPred s now with ⟨b, s₀⟩
  rw [hw] at hq₀
  cases b with
  | false => left; exact ⟨rfl, hq₀⟩
  | true =>
    rcases popLocked_cases s₀ now with ⟨h1, h2⟩ | ⟨c, rest, hq, h1, h2⟩
    · left; exact ⟨h1, by rw [h2]; exact hq₀⟩
    · right; exact ⟨c, rest, by rw [← hq₀]; exact hq, h1, h2⟩

/-- `popLocked` on an ended provider keeps it ended. -/
theorem popLocked_ended_mono (s : QueueProvider) (now : Nat) (h : s.ended = true) :
    ((QueueProvider.popLocked s now).2).ended = true := by
  unfold QueueProvider.popLocked
  rw [check_timeout_of_ended s now h]
  cases hq : s.queue with
  | nil => simpa [hq] using h
  | cons c rest => simpa [hq] using h

/-- `popLocked` never clears `ended_`. -/
theorem popLocked_ended_mono' (s : QueueProvider) (now : Nat) :
    s.ended = true → ((QueueProvider.popLocked s now).2).ended = true :=
  popLocked_ended_mono s now

/-- Every operation of the alphabet keeps an ended provider ended: no
operation ever clears `ended_`. -/
theorem step_ended_mono (s : QueueProvider) (op : ProviderOp) (h : s.ended = true) :
    ((ProviderOp.step s op).2).ended = true := by
  cases op with
  | push c now => simp [ProviderOp.step, push_of_ended s c now h, h]
  | pop now => simpa [ProviderOp.step, QueueProvider.pop] using popLocked_ended_mono s now h
  | waitPop now =>
      simpa [ProviderOp.step, QueueProvider.wait_pop, waitPred_of_ended s now h] using
        popLocked_ended_mono s now h
  | waitPopFor now =>
      simpa [ProviderOp.step, QueueProvider.wait_pop_for, waitPred_of_ended s now h] using
        popLocked_ended_mono s now h
  | endOp => simp [ProviderOp.step, QueueProvider.end']
  | disconnectOp => simp [ProviderOp.step, QueueProvider.disconnect]
  | resetTimeout now => simpa [ProviderOp.step, QueueProvider.reset_timeout] using h
  | isEndedOp now =>
      simpa [ProviderOp.step, QueueProvider.is_ended] using check_timeout_ended_mono s now h
  | setTimeoutOp t => simpa [ProviderOp.step, QueueProvider.set_timeout] using h

/-- Replaying any interleaving keeps an ended provider ended. -/
theorem run_ended_mono (l : List ProviderOp) :
    ∀ s : QueueProvider, s.ended = true → ((ProviderOp.run s l)).ended = true := by
  induction l with
  | nil => intro s h; simpa [ProviderOp.run] using h
  | cons op rest ih =>
    intro s h
    simpa [ProviderOp.run] using ih _ (step_ended_mono s op h)

/-- An ended provider with a drained queue stays ended and drained under
every operation (pushes fail, pops return nothing). -/
theorem step_drained (s : QueueProvider) (op : ProviderOp)
    (he : s.ended = true) (hq : s.queue = []) :
    ((ProviderOp.step s op).2).ended = true ∧ ((ProviderOp.step s op).2).queue = [] := by
  refine ⟨step_ended_mono s op he, ?_⟩
  cases op with
  | push c now => simp [ProviderOp.step, push_of_ended s c now he, hq]
  | pop now =>
    rcases pop_cases s now with ⟨_, h2⟩ | ⟨c, rest, hcons, _, _⟩
    · simpa [ProviderOp.step] using h2.trans hq
    · rw [hq] at hcons; exact absurd hcons (by simp)
  | waitPop now =>
    rcases wait_pop_cases s now with ⟨_, h2⟩ | ⟨c, rest, hcons, _, _⟩
    · simpa [ProviderOp.step] using h2.trans hq
    · rw [hq] at hcons; exact absurd hcons (by simp)
  | waitPopFor now =>
    rcases wait_pop_for_cases s now with ⟨_, h2⟩ | ⟨c, rest, hcons, _, _⟩
    · simpa [ProviderOp.step] using h2.trans hq
    · rw [hq] at hcons; exact absurd hcons (by simp)
  | endOp => simpa [ProviderOp.step, QueueProvider.end'] using hq
  | disconnectOp => simpa [ProviderOp.step, QueueProvider.disconnect] using hq
  | resetTimeout now => simpa [ProviderOp.step, QueueProvider.reset_timeout] using hq
  | isEndedOp now =>
    simpa [ProviderOp.step, QueueProvider.is_ended, check_timeout_queue s now] using hq
  | setTimeoutOp t => simpa [ProviderOp.step, QueueProvider.set_timeout] using hq

/-- Replaying any interleaving keeps an ended, drained provider ended and
drained. -/
theorem run_drained (l : List ProviderOp) :
    ∀ s : QueueProvider, s.ended = true → s.queue = [] →
      ((ProviderOp.run s l)).ended = true ∧ ((ProviderOp.run s l)).queue = [] := by
  induction l with
  | nil => intro s he hq; simpa [ProviderOp.run] using ⟨he, hq⟩
  | cons op rest ih =>
    intro s he hq
    have h := step_drained s op he hq
    simpa [ProviderOp.run] using ih _ h.1 h.2

/-- C1: For every provider and every interleaving of operations, once
`end()` or `disconnect()` has been called, every subsequent `push` (both
C++ overloads embed to the same update) returns false and leaves the queue
unchanged; `end()` and `disconnect()` are idempotent, and `end()` after
`disconnect()` is a no-op. -/
theorem c1_terminal_push_false (s₀ s₁ : QueueProvider)
    (h : s₁ = QueueProvider.end' s₀ ∨ s₁ = QueueProvider.disconnect s₀)
    (l : List ProviderOp) (c : OutputChunk) (now : Nat) :
    (QueueProvider.push (ProviderOp.run s₁ l) c now).1 = false
    ∧ ((QueueProvider.push (ProviderOp.run s₁ l) c now).2).queue = (ProviderOp.run s₁ l).queue
    ∧ QueueProvider.end' (QueueProvider.end' s₀) = QueueProvider.end' s₀
    ∧ QueueProvider.disconnect (QueueProvider.disconnect s₀) = QueueProvider.disconnect s₀
    ∧ QueueProvider.end' (QueueProvider.disconnect s₀) = QueueProvider.disconnect s₀ := by
  have hse : s₁.ended = true := by
    rcases h with h | h <;> simp [h, QueueProvider.end', QueueProvider.disconnect]
  have hrun := run_ended_mono l s₁ hse
  refine ⟨?_, ?_, rfl, rfl, rfl⟩
  · simp [push_of_ended _ c now hrun]
  · simp [push_of_ended _ c now hrun]

/-- Witness for C1 at a concrete provider, trace and chunk. -/
theorem c1_terminal_push_false_witness :
    (QueueProvider.push
        (ProviderOp.run (QueueProvider.end' (QueueProvider.make 60000 0)) [ProviderOp.pop 1])
        (OutputChunk.TextDelta "hi" "gpt-4" 0) 2).1 = false :=
  (c1_terminal_push_false (QueueProvider.make 60000 0) _ (Or.inl rfl)
    [ProviderOp.pop 1] (OutputChunk.TextDelta "hi" "gpt-4" 0) 2).1

/-- FIFO invariant: over any interleaving without `end`/`disconnect` in
which every push succeeds, the chunks returned by the pop family followed
by what is still queued are exactly the initial queue followed by the
pushed chunks, in order. -/
theorem pops_append_queue (l : List ProviderOp) :
    ∀ s : QueueProvider, ProviderOp.noTerminal l = true →
      ProviderOp.allPushesSucceed s l = true →
      ProviderOp.pops s l ++ (ProviderOp.run s l).queue = s.queue ++ ProviderOp.pushes l := by
  induction l with
  | nil => intro s _ _; simp [ProviderOp.pops, ProviderOp.run, ProviderOp.pushes]
  | cons op rest ih =>
    intro s hnt hap
    cases op with
    | push c now =>
      rcases hp : QueueProvider.push s c now with ⟨ok, s'⟩
      have hstep : ProviderOp.step s (.push c now) = (.pushRes ok, s') := by
        simp [ProviderOp.step, hp]
      have hnt' : ProviderOp.noTerminal rest = true := by
        simpa [ProviderOp.noTerminal] using hnt
      have hap' : ok = true ∧ ProviderOp.allPushesSucceed s' rest = true := by
        simpa [ProviderOp.allPushesSucceed, hstep] using hap
      have hq' : s'.queue = s.queue ++ [c] := by
        have := push_true_queue s c now (by rw [hp]; exact hap'.1)
        rw [hp] at this
        exact this
      have := ih s' hnt' hap'.2
      simp only [ProviderOp.pops, ProviderOp.run, ProviderOp.pushes, hstep]
      rw [this, hq']
      simp
    | pop now =>
      rcases hp : QueueProvider.pop s now with ⟨r, s'⟩
      have hstep : ProviderOp.step s (.pop now) = (.popRes r, s') := by
        simp [ProviderOp.step, hp]
      have hnt' : ProviderOp.noTerminal rest = true := by
        simpa [ProviderOp.noTerminal] using hnt
      have hap' : ProviderOp.allPushesSucceed s' rest = true := by
        simpa [ProviderOp.allPushesSucceed, hstep] using hap
      have := ih s' hnt' hap'
      rcases pop_cases s now with ⟨h1, h2⟩ | ⟨c, cs, hcons, h1, h2⟩ <;>
        rw [hp] at h1 h2 <;> subst h1
      · simp only [ProviderOp.pops, ProviderOp.run, ProviderOp.pushes, hstep]
        rw [this, h2]
      · simp only [ProviderOp.pops, ProviderOp.run, ProviderOp.pushes, hstep]
        rw [List.cons_append, this, h2, hcons]
        simp
    | waitPop now =>
      rcases hp : QueueProvider.wait_pop s now with ⟨r, s'⟩
      have hstep : ProviderOp.step s (.waitPop now) = (.popRes r, s') := by
        simp [ProviderOp.step, hp]
      have hnt' : ProviderOp.noTerminal rest = true := by
        simpa [ProviderOp.noTerminal] using hnt
      have hap' : ProviderOp.allPushesSucceed s' rest = true := by
        simpa [ProviderOp.allPushesSucceed, hstep] using hap
      have := ih s' hnt' hap'
      rcases wait_pop_cases s now with ⟨h1, h2⟩ | ⟨c, cs, hcons, h1, h2⟩ <;>
        rw [hp] at h1 h2 <;> subst h1
      · simp only [ProviderOp.pops, ProviderOp.run, ProviderOp.pushes, hstep]
        rw [this, h2]
      · simp only [ProviderOp.pops, ProviderOp.run, ProviderOp.pushes, hstep]
        rw [List.cons_append, this, h2, hcons]
        simp
    | waitPopFor now =>
      rcases hp : QueueProvider.wait_pop_for s now with ⟨r, s'⟩
      have hstep : ProviderOp.step s (.waitPopFor now) = (.popRes r, s') := by
        simp [ProviderOp.step, hp]
      have hnt' : ProviderOp.noTerminal rest = true := by
        simpa [ProviderOp.noTerminal] using hnt
      have hap' : ProviderOp.allPushesSucceed s' rest = true := by
        simpa [ProviderOp.allPushesSucceed, hstep] using hap
      have := ih s' hnt' hap'
      rcases wait_pop_for_cases s now with ⟨h1, h2⟩ | ⟨c, cs, hcons, h1, h2⟩ <;>
        rw [hp] at h1 h2 <;> subst h1
      · simp only [ProviderOp.pops, ProviderOp.run, ProviderOp.pushes, hstep]
        rw [this, h2]
      · simp only [ProviderOp.pops, ProviderOp.run, ProviderOp.pushes, hstep]
        rw [List.cons_append, this, h2, hcons]
        simp
    | endOp => simp [ProviderOp.noTerminal] at hnt
    | disconnectOp => simp [ProviderOp.noTerminal] at hnt
    | resetTimeout now =>
      have hnt' : ProviderOp.noTerminal rest = true := by
        simpa [ProviderOp.noTerminal] using hnt
      have hap' : ProviderOp.allPushesSucceed (QueueProvider.reset_timeout s now) rest = true := by
        simpa [ProviderOp.allPushesSucceed, ProviderOp.step] using hap
      have := ih (QueueProvider.reset_timeout s now) hnt' hap'
      simp only [ProviderOp.pops, ProviderOp.run, ProviderOp.pushes, ProviderOp.step]
      rw [this]
      rfl
    | isEndedOp now =>
      rcases hp : QueueProvider.is_ended s now with ⟨b, s'⟩
      have hstep : ProviderOp.step s (.isEndedOp now) = (.boolRes b, s') := by
        simp [ProviderOp.step, hp]
      have hnt' : ProviderOp.noTerminal rest = true := by
        simpa [ProviderOp.noTerminal] using hnt
      have hap' : ProviderOp.allPushesSucceed s' rest = true := by
        simpa [ProviderOp.allPushesSucceed, hstep] using hap
      have hq' : s'.queue = s.queue := by
        have h1 : ((QueueProvider.is_ended s now).2).queue = s.queue := by
          simpa [QueueProvider.is_ended] using check_timeout_queue s now
        rw [hp] at h1
        exact h1
      have := ih s' hnt' hap'
      simp only [ProviderOp.pops, ProviderOp.run, ProviderOp.pushes, hstep]
      rw [this, hq']
    | setTimeoutOp t =>
      have hnt' : ProviderOp.noTerminal rest = true := by
        simpa [ProviderOp.noTerminal] using hnt
      have hap' : ProviderOp.allPushesSucceed (QueueProvider.set_timeout s t) rest = true := by
        simpa [ProviderOp.allPushesSucceed, ProviderOp.step] using hap
      have := ih (QueueProvider.set_timeout s t) hnt' hap'
      simp only [ProviderOp.pops, ProviderOp.run, ProviderOp.pushes, ProviderOp.step]
      rw [this]
      rfl

/-- C2: For every sequence of successful pushes on a provider (starting
empty) with no intervening `end`/`disconnect`, the consumer's
`pop`/`wait_pop`/`wait_pop_for` calls return exactly the pushed chunks, in
push order, none lost (what is not yet returned is still queued, in order)
and none duplicated. -/
theorem c2_fifo_no_loss_no_dup (s₀ : QueueProvider) (l : List ProviderOp)
    (hq : s₀.queue = [])
    (hnt : ProviderOp.noTerminal l = true)
    (hap : ProviderOp.allPushesSucceed s₀ l = true) :
    ProviderOp.pops s₀ l ++ (ProviderOp.run s₀ l).queue = ProviderOp.pushes l := by
  have := pops_append_queue l s₀ hnt hap
  rwa [hq, List.nil_append] at this

/-- Witness for C2: two pushes interleaved with pops drain in FIFO order. -/
theorem c2_fifo_no_loss_no_dup_witness :
    ProviderOp.pops (QueueProvider.make 60000 0)
        [ProviderOp.push (OutputChunk.TextDelta "Hello" "gpt-4" 0) 1,
         ProviderOp.push (OutputChunk.TextDelta " World" "gpt-4" 0) 2,
         ProviderOp.pop 3, ProviderOp.waitPopFor 4]
      ++ (ProviderOp.run (QueueProvider.make 60000 0)
        [ProviderOp.push (OutputChunk.TextDelta "Hello" "gpt-4" 0) 1,
         ProviderOp.push (OutputChunk.TextDelta " World" "gpt-4" 0) 2,
         ProviderOp.pop 3, ProviderOp.waitPopFor 4]).queue
    = ProviderOp.pushes
        [ProviderOp.push (OutputChunk.TextDelta "Hello" "gpt-4" 0) 1,
         ProviderOp.push (OutputChunk.TextDelta " World" "gpt-4" 0) 2,
         ProviderOp.pop 3, ProviderOp.waitPopFor 4] :=
  c2_fifo_no_loss_no_dup (QueueProvider.make 60000 0) _ rfl rfl rfl

/-- C3 counterexample: a successful push at time 0 on a fresh provider with
timeout 5 ms leaves one chunk queued, yet `pop()` at time 6 returns empty —
the timeout check runs before the queue is consulted, so a non-empty queue
does not guarantee that `pop` returns the head. -/
theorem c3_pop_counterexample :
    ((QueueProvider.pop
        ((QueueProvider.push (QueueProvider.make 5 0)
            (OutputChunk.TextDelta "data" "gpt-4" 0) 0).2) 6).1 = none)
    ∧ ((QueueProvider.push (QueueProvider.make 5 0)
          (OutputChunk.TextDelta "data" "gpt-4" 0) 0).2.queue.length = 1) :=
  ⟨rfl, rfl⟩

/-- C3 (amended): `pop()` runs the idle-timeout check first.  When the
provider is not yet ended and has been idle for longer than the timeout, it
transitions to ended and returns empty even if the queue is non-empty.
Otherwise it returns the head when the queue is non-empty and empty (with
no state change) when the queue is empty. -/
theorem c3_pop_spec_amended (s : QueueProvider) (now : Nat) :
    (s.ended = false → s.timeout < now - s.last_activity →
        QueueProvider.pop s now = (none, { s with ended := true }))
    ∧ (s.ended = true ∨ now - s.last_activity ≤ s.timeout →
        QueueProvider.pop s now =
          match s.queue with
          | [] => (none, s)
          | c :: rest => (some c, { s with queue := rest })) := by
  constructor
  · intro he ht
    unfold QueueProvider.pop QueueProvider.popLocked QueueProvider.check_timeout_locked
    simp [he, ht]
  · intro h
    have hc : QueueProvider.check_timeout_locked s now = (false, s) := by
      unfold QueueProvider.check_timeout_locked
      rcases h with he | ht
      · simp [he]
      · by_cases he : s.ended
        · simp [he]
        · simp [he, Nat.not_lt.mpr ht]
    unfold QueueProvider.pop QueueProvider.popLocked
    rw [hc]

/-- Witness for the amended C3 at concrete states: a timed-out non-empty
provider yields empty and ends; an in-time one yields its head. -/
theorem c3_pop_spec_amended_witness :
    QueueProvider.pop
        ((QueueProvider.push (QueueProvider.make 5 0)
            (OutputChunk.TextDelta "data" "gpt-4" 0) 0).2) 6
      = (none, { (QueueProvider.push (QueueProvider.make 5 0)
            (OutputChunk.TextDelta "data" "gpt-4" 0) 0).2 with ended := true })
    ∧ QueueProvider.pop
        ((QueueProvider.push (QueueProvider.make 5 0)
            (OutputChunk.TextDelta "data" "gpt-4" 0) 0).2) 3
      = (some (OutputChunk.TextDelta "data" "gpt-4" 0),
         { (QueueProvider.push (QueueProvider.make 5 0)
              (OutputChunk.TextDelta "data" "gpt-4" 0) 0).2 with queue := [] }) :=
  ⟨(c3_pop_spec_amended _ 6).1 rfl (by decide),
   (c3_pop_spec_amended _ 3).2 (Or.inr (by decide))⟩

/-- C4 counterexample: a provider with timeout 5 ms receives one successful
push at time 0 and nothing afterwards; at time 10 (idle for 10 > 5 ms)
`is_ended()` still returns false because a chunk is still queued —
`is_ended` reports `ended_ && queue_.empty()`, not the ended flag alone. -/
theorem c4_is_ended_counterexample :
    (QueueProvider.is_ended
        ((QueueProvider.push (QueueProvider.make 5 0)
            (OutputChunk.TextDelta "data" "gpt-4" 0) 0).2) 10).1 = false :=
  rfl

/-- C4 (amended): when no push has happened for longer than the timeout,
the next `is_ended()` call sets the internal ended flag, and its result is
then exactly "the queue is empty"; and once `is_ended()` has returned true
it returns true after every further interleaving of operations (the queue
can never grow again). -/
theorem c4_is_ended_amended (s : QueueProvider) (now : Nat) :
    (s.ended = false → s.timeout < now - s.last_activity →
        ((QueueProvider.is_ended s now).2).ended = true
        ∧ (QueueProvider.is_ended s now).1 = s.queue.isEmpty)
    ∧ ((QueueProvider.is_ended s now).1 = true →
        ∀ (l : List ProviderOp) (now' : Nat),
          (QueueProvider.is_ended
            (ProviderOp.run ((QueueProvider.is_ended s now).2) l) now').1 = true) := by
  constructor
  · intro he ht
    have hc : QueueProvider.check_timeout_locked s now = (true, { s with ended := true }) := by
      unfold QueueProvider.check_timeout_locked
      simp [he, ht]
    constructor
    · simp [QueueProvider.is_ended, hc]
    · simp [QueueProvider.is_ended, hc]
  · intro h1 l now'
    have h1' : ((QueueProvider.check_timeout_locked s now).2).ended = true
        ∧ ((QueueProvider.check_timeout_locked s now).2).queue.isEmpty = true := by
      simpa [QueueProvider.is_ended, Bool.and_eq_true] using h1
    have hq2 : ((QueueProvider.check_timeout_locked s now).2).queue = [] := by
      simpa [List.isEmpty_iff] using h1'.2
    have hrun := run_drained l _ h1'.1 hq2
    have hend := check_timeout_ended_mono _ now' hrun.1
    have hqf := (check_timeout_queue _ now').trans hrun.2
    simp [QueueProvider.is_ended, hend, hqf]

/-- Witness for the amended C4: the timed-out provider's ended flag is set
and its `is_ended` equals queue emptiness; a drained ended provider stays
ended after further operations. -/
theorem c4_is_ended_amended_witness :
    (((QueueProvider.is_ended
          ((QueueProvider.push (QueueProvider.make 5 0)
              (OutputChunk.TextDelta "data" "gpt-4" 0) 0).2) 10).2).ended = true
      ∧ (QueueProvider.is_ended
          ((QueueProvider.push (QueueProvider.make 5 0)
              (OutputChunk.TextDelta "data" "gpt-4" 0) 0).2) 10).1
        = ((QueueProvider.push (QueueProvider.make 5 0)
              (OutputChunk.TextDelta "data" "gpt-4" 0) 0).2).queue.isEmpty)
    ∧ (QueueProvider.is_ended
        (ProviderOp.run ((QueueProvider.is_ended (QueueProvider.make 5 0) 10).2)
          [ProviderOp.push (OutputChunk.TextDelta "x" "m" 0) 11]) 12).1 = true :=
  ⟨(c4_is_ended_amended _ 10).1 rfl (by decide),
   (c4_is_ended_amended (QueueProvider.make 5 0) 10).2 rfl
     [ProviderOp.push (OutputChunk.TextDelta "x" "m" 0) 11] 12⟩

/-! The Chat Completions SSE encoder (`encoder/encoder.hpp`) and the
chunked content provider of the streamed chat flow (`server.cpp`,
`Server::handleChatCompletions`). -/

/-- The SSE terminal line `data: [DONE]\n\n`. -/
def ChatCompletionsSSEEncoder.done_marker : String := "data: [DONE]\n\n"

/-- `create_sse_delta`: the chunk object for a text delta.  `freshId` is
the `generate_id()` value and `now` the `std::time(nullptr)` value read at
encode time; keys appear in the sorted order `nlohmann::json`'s `std::map`
stores them. -/
def ChatCompletionsSSEEncoder.create_sse_delta
    (chunk : OutputChunk) (freshId : String) (now : Int) : Json :=
  .obj [("choices", .arr [ .obj [
            ("delta", .obj [("content", .str chunk.text), ("role", .str "assistant")]),
            ("finish_reason", .null),
            ("index", .num chunk.index)] ]),
        ("created", .num (if chunk.created ≠ 0 then chunk.created else now)),
        ("id", .str (if chunk.id.isEmpty then freshId else chunk.id)),
        ("model", .str (if chunk.model.isEmpty then "gpt-4" else chunk.model)),
        ("object", .str "chat.completion.chunk")]

/-- `create_sse_finish`: the final chunk object (`finish_reason = "stop"`). -/
def ChatCompletionsSSEEncoder.create_sse_finish
    (chunk : OutputChunk) (freshId : String) (now : Int) : Json :=
  .obj [("choices", .arr [ .obj [
            ("delta", .obj []),
            ("finish_reason", .str "stop"),
            ("index", .num chunk.index)] ]),
        ("created", .num (if chunk.created ≠ 0 then chunk.created else now)),
        ("id", .str (if chunk.id.isEmpty then freshId else chunk.id)),
        ("model", .str (if chunk.model.isEmpty then "gpt-4" else chunk.model)),
        ("object", .str "chat.completion.chunk")]

/-- `create_sse_error`. -/
def ChatCompletionsSSEEncoder.create_sse_error (chunk : OutputChunk) : Json :=
  .obj [("error", .obj [("message", .str chunk.error_message),
                        ("type", .str chunk.error_code)])]

/-- `ChatCompletionsSSEEncoder::encode`: dispatch on the chunk type. -/
def ChatCompletionsSSEEncoder.encode
    (freshId : String) (now : Int) (chunk : OutputChunk) : String :=
  match chunk.type with
  | .TextDelta =>
      "data: " ++ (ChatCompletionsSSEEncoder.create_sse_delta chunk freshId now).dump ++ "\n\n"
  | .FinalText =>
      "data: " ++ (ChatCompletionsSSEEncoder.create_sse_finish chunk freshId now).dump ++ "\n\n"
  | .Error =>
      "data: " ++ (ChatCompletionsSSEEncoder.create_sse_error chunk).dump ++ "\n\n"
  | .End => "data: [DONE]\n\n"
  | _ => ""

/-- The state captured by the chunked content provider lambda in
`Server::handleChatCompletions` (`StreamState` in `server.cpp`). -/
structure StreamState where
  done : Bool
  start : Nat
  timeout : Nat

/-- One invocation of the chunked content provider lambda
(`server.cpp:349-396`).  Returns the lines written to the sink, the boolean
handed back to the HTTP library, and the updated state.  `fid`/`idn` are
the impure reads (`generate_id`, `std::time`) an encode performed during
this invocation would make; `now` is the `steady_clock::now()` reading. -/
def Server.chunkedContentProviderStep (st : StreamState) (ps : QueueProvider)
    (fid : String) (idn : Int) (now : Nat) :
    List String × Bool × StreamState × QueueProvider :=
  if st.done then ([], false, st, ps)
  else if st.timeout ≤ now - st.start then
    ([ChatCompletionsSSEEncoder.done_marker], false, { st with done := true }, ps)
  else
    match QueueProvider.is_ended ps now with
    | (true, ps₁) =>
        ([ChatCompletionsSSEEncoder.done_marker], false, { st with done := true }, ps₁)
    | (false, ps₁) =>
      match QueueProvider.wait_pop_for ps₁ now with
      | (none, ps₂) => ([], true, st, ps₂)
      | (some c, ps₂) =>
        if c.is_end then
          ([ChatCompletionsSSEEncoder.done_marker], false, { st with done := true }, ps₂)
        else
          (if (ChatCompletionsSSEEncoder.encode fid idn c).isEmpty then []
           else [ChatCompletionsSSEEncoder.encode fid idn c], true, st, ps₂)

/-- Events of a streamed chat session: invocations of the producer lambda
by the HTTP library, interleaved with the model callback's `push`/`end()`
calls on the shared provider (the callback only sees `BaseDataProvider`,
which exposes no `disconnect`). -/
inductive StreamEv where
  | invoke (fid : String) (idn : Int) (now : Nat)
  | pushEv (c : OutputChunk) (now : Nat)
  | endEv

/-- Replay a streamed chat session, collecting every line written to the
sink. -/
def Server.runStream (st : StreamState) (ps : QueueProvider) :
    List StreamEv → List String × StreamState × QueueProvider
  | [] => ([], st, ps)
  | .invoke fid idn now :: rest =>
    let r := Server.chunkedContentProviderStep st ps fid idn now
    let r' := Server.runStream r.2.2.1 r.2.2.2 rest
    (r.1 ++ r'.1, r'.2)
  | .pushEv c now :: rest => Server.runStream st (QueueProvider.push ps c now).2 rest
  | .endEv :: rest => Server.runStream st (QueueProvider.end' ps) rest

/-- A `data: ` line whose payload starts with an opening brace is never the
`[DONE]` marker (they differ at the seventh byte). -/
theorem data_obj_ne_done (a b : String) :
    ("data: " ++ (("\x7b" ++ a) ++ b)) ++ "\n\n" ≠ "data: [DONE]\n\n" := by
  intro h
  have hd := congrArg String.data h
  simp only [String.data_append] at hd
  simp only [List.append_assoc, List.cons_append, List.singleton_append,
             List.nil_append] at hd
  simp only [List.cons.injEq] at hd
  exact absurd hd.2.2.2.2.2.2.1 (by decide)

/-- Inside the streaming loop, an encoded non-end chunk is either empty or
a line different from the `[DONE]` marker. -/
theorem encode_ne_marker (fid : String) (idn : Int) (c : OutputChunk)
    (h : c.is_end = false) :
    ChatCompletionsSSEEncoder.encode fid idn c = ""
    ∨ ChatCompletionsSSEEncoder.encode fid idn c ≠ ChatCompletionsSSEEncoder.done_marker := by
  unfold ChatCompletionsSSEEncoder.encode
  cases ht : c.type
  case TextDelta =>
    right
    show "data: " ++ (ChatCompletionsSSEEncoder.create_sse_delta c fid idn).dump ++ "\n\n"
        ≠ ChatCompletionsSSEEncoder.done_marker
    simp only [ChatCompletionsSSEEncoder.create_sse_delta, Json.dump,
               ChatCompletionsSSEEncoder.done_marker]
    exact data_obj_ne_done _ _
  case FinalText =>
    right
    show "data: " ++ (ChatCompletionsSSEEncoder.create_sse_finish c fid idn).dump ++ "\n\n"
        ≠ ChatCompletionsSSEEncoder.done_marker
    simp only [ChatCompletionsSSEEncoder.create_sse_finish, Json.dump,
               ChatCompletionsSSEEncoder.done_marker]
    exact data_obj_ne_done _ _
  case Error =>
    right
    show "data: " ++ (ChatCompletionsSSEEncoder.create_sse_error c).dump ++ "\n\n"
        ≠ ChatCompletionsSSEEncoder.done_marker
    simp only [ChatCompletionsSSEEncoder.create_sse_error, Json.dump,
               ChatCompletionsSSEEncoder.done_marker]
    exact data_obj_ne_done _ _
  case End =>
    simp [OutputChunk.is_end, ht] at h
  case Embedding => left; rfl
  case Embeddings => left; rfl
  case JsonObject => left; rfl
  case AudioBytes => left; rfl
  case ImageBytes => left; rfl

/-- From a not-yet-done state, one invocation of the producer lambda
either writes nothing, writes one non-marker line (state unchanged), or
writes exactly the `[DONE]` marker and flips the done flag. -/
theorem chunkedStep_cases (st : StreamState) (ps : QueueProvider)
    (fid : String) (idn : Int) (now : Nat) (h : st.done = false) :
    ((Server.chunkedContentProviderStep st ps fid idn now).1 = []
       ∧ (Server.chunkedContentProviderStep st ps fid idn now).2.1 = true
       ∧ (Server.chunkedContentProviderStep st ps fid idn now).2.2.1 = st)
    ∨ (∃ w, (Server.chunkedContentProviderStep st ps fid idn now).1 = [w]
        ∧ w ≠ ChatCompletionsSSEEncoder.done_marker
        ∧ (Server.chunkedContentProviderStep st ps fid idn now).2.1 = true
        ∧ (Server.chunkedContentProviderStep st ps fid idn now).2.2.1 = st)
    ∨ ((Server.chunkedContentProviderStep st ps fid idn now).1
          = [ChatCompletionsSSEEncoder.done_marker]
        ∧ (Server.chunkedContentProviderStep st ps fid idn now).2.1 = false
        ∧ ((Server.chunkedContentProviderStep st ps fid idn now).2.2.1).done = true) := by
  unfold Server.chunkedContentProviderStep
  rw [if_neg (by simp [h])]
  by_cases hto : st.timeout ≤ now - st.start
  · rw [if_pos hto]
    right; right; exact ⟨rfl, rfl, rfl⟩
  · rw [if_neg hto]
    split
    · right; right; exact ⟨rfl, rfl, rfl⟩
    · split
      · left; exact ⟨rfl, rfl, rfl⟩
      · rename_i c ps₂ heq2
        by_cases hce : c.is_end = true
        · rw [if_pos hce]
          right; right; exact ⟨rfl, rfl, rfl⟩
        · rw [if_neg hce]
          have hcf : c.is_end = false := by simpa using hce
          rcases encode_ne_marker fid idn c hcf with hemp | hne
          · left
            refine ⟨?_, rfl, rfl⟩
            rw [hemp]; rfl
          · by_cases hie : (ChatCompletionsSSEEncoder.encode fid idn c).isEmpty
            · left; exact ⟨by simp [hie], rfl, rfl⟩
            · right; left
              exact ⟨ChatCompletionsSSEEncoder.encode fid idn c,
                     by simp [hie], hne, rfl, rfl⟩

/-- Once the done flag is set, every further event writes nothing and the
stream state is never touched again. -/
theorem runStream_done (evs : List StreamEv) :
    ∀ (st : StreamState) (ps : QueueProvider), st.done = true →
      (Server.runStream st ps evs).1 = [] ∧ (Server.runStream st ps evs).2.1 = st := by
  induction evs with
  | nil => intro st ps _; exact ⟨rfl, rfl⟩
  | cons ev rest ih =>
    intro st ps h
    cases ev with
    | invoke fid idn now =>
      have hstep : Server.chunkedContentProviderStep st ps fid idn now = ([], false, st, ps) := by
        unfold Server.chunkedContentProviderStep
        rw [if_pos h]
      simp only [Server.runStream, hstep]
      simpa using ih st ps h
    | pushEv c now => simpa [Server.runStream] using ih st _ h
    | endEv => simpa [Server.runStream] using ih st _ h

/-- Marker invariant of the streamed chat loop: starting not-done, the
lines written contain no `[DONE]` marker while the loop is live, and once
the done flag is set they are some marker-free prefix followed by exactly
one final `[DONE]` marker. -/
theorem runStream_marker (evs : List StreamEv) :
    ∀ (st : StreamState) (ps : QueueProvider), st.done = false →
      ((Server.runStream st ps evs).2.1.done = false →
          ((Server.runStream st ps evs).1).count ChatCompletionsSSEEncoder.done_marker = 0)
      ∧ ((Server.runStream st ps evs).2.1.done = true →
          ∃ pre, (Server.runStream st ps evs).1
              = pre ++ [ChatCompletionsSSEEncoder.done_marker]
            ∧ pre.count ChatCompletionsSSEEncoder.done_marker = 0) := by
  induction evs with
  | nil =>
    intro st ps h
    constructor
    · intro _; rfl
    · intro hd
      exact absurd (h ▸ hd) (by simp)
  | cons ev rest ih =>
    intro st ps h
    cases ev with
    | pushEv c now =>
      simpa only [Server.runStream] using ih st (QueueProvider.push ps c now).2 h
    | endEv =>
      simpa only [Server.runStream] using ih st (QueueProvider.end' ps) h
    | invoke fid idn now =>
      rcases chunkedStep_cases st ps fid idn now h with ⟨h1, _, h2⟩ | ⟨w, h1, hwne, _, h2⟩ | ⟨h1, _, h2⟩
      · have := ih st (Server.chunkedContentProviderStep st ps fid idn now).2.2.2 h
        simp only [Server.runStream, h1, h2]
        simpa using this
      · have := ih st (Server.chunkedContentProviderStep st ps fid idn now).2.2.2 h
        simp only [Server.runStream, h1, h2]
        constructor
        · intro hd
          have h0 := this.1 (by simpa using hd)
          simpa [List.count_cons_of_ne (Ne.symm hwne)] using h0
        · intro hd
          obtain ⟨pre, hpre, hcnt⟩ := this.2 (by simpa using hd)
          refine ⟨w :: pre, ?_, ?_⟩
          · simp [hpre]
          · simpa [List.count_cons_of_ne (Ne.symm hwne)] using hcnt
      · have hdone := runStream_done rest
          (Server.chunkedContentProviderStep st ps fid idn now).2.2.1
          (Server.chunkedContentProviderStep st ps fid idn now).2.2.2 h2
        simp only [Server.runStream, h1]
        constructor
        · intro hd
          rw [hdone.2] at hd
          exact absurd (h2 ▸ hd) (by simp [h2])
        · intro _
          exact ⟨[], by simp [hdone.1], rfl⟩

/-- C5: For every streamed chat session, the chunked-content producer loop
emits at most one `data: [DONE]\n\n` line; while the loop is live none has
been emitted; once the done flag is set exactly one has been emitted and it
is the last line written; and every invocation that terminates the stream
(returns false to the HTTP library) from a live state — elapsed time past
the timeout, provider ended, or an end event popped — writes exactly the
marker. -/
theorem c5_sse_done_marker (startT timeoutT : Nat) (ps : QueueProvider)
    (evs : List StreamEv) :
    ((Server.runStream { done := false, start := startT, timeout := timeoutT } ps evs).1.count
        ChatCompletionsSSEEncoder.done_marker ≤ 1)
    ∧ ((Server.runStream { done := false, start := startT, timeout := timeoutT } ps evs).2.1.done
          = false →
        (Server.runStream { done := false, start := startT, timeout := timeoutT } ps evs).1.count
          ChatCompletionsSSEEncoder.done_marker = 0)
    ∧ ((Server.runStream { done := false, start := startT, timeout := timeoutT } ps evs).2.1.done
          = true →
        (Server.runStream { done := false, start := startT, timeout := timeoutT } ps evs).1.count
            ChatCompletionsSSEEncoder.done_marker = 1
        ∧ (Server.runStream { done := false, start := startT, timeout := timeoutT } ps evs).1.getLast?
            = some ChatCompletionsSSEEncoder.done_marker)
    ∧ (∀ (st : StreamState) (ps' : QueueProvider) (fid : String) (idn : Int) (now : Nat),
        st.done = false →
        (Server.chunkedContentProviderStep st ps' fid idn now).2.1 = false →
        (Server.chunkedContentProviderStep st ps' fid idn now).1
          = [ChatCompletionsSSEEncoder.done_marker]) := by
  have hm := runStream_marker evs { done := false, start := startT, timeout := timeoutT } ps rfl
  have hdone1 : (Server.runStream { done := false, start := startT, timeout := timeoutT } ps evs).2.1.done
      = true →
      (Server.runStream { done := false, start := startT, timeout := timeoutT } ps evs).1.count
          ChatCompletionsSSEEncoder.done_marker = 1
      ∧ (Server.runStream { done := false, start := startT, timeout := timeoutT } ps evs).1.getLast?
          = some ChatCompletionsSSEEncoder.done_marker := by
    intro hd
    obtain ⟨pre, hpre, hcnt⟩ := hm.2 hd
    constructor
    · rw [hpre]
      simp [List.count_append, hcnt]
    · rw [hpre]
      exact List.getLast?_concat pre
  refine ⟨?_, hm.1, hdone1, ?_⟩
  · by_cases hd : (Server.runStream { done := false, start := startT, timeout := timeoutT } ps evs).2.1.done = true
    · rw [(hdone1 hd).1]
    · have := hm.1 (by simpa using hd)
      rw [this]
      exact Nat.zero_le 1
  · intro st ps' fid idn now hdone hret
    rcases chunkedStep_cases st ps' fid idn now hdone with ⟨_, hr, _⟩ | ⟨w, _, _, hr, _⟩ | ⟨h1, _, _⟩
    · rw [hr] at hret; exact absurd hret (by simp)
    · rw [hr] at hret; exact absurd hret (by simp)
    · exact h1

/-- Witness for C5: a session with one text delta, an `end()`, and further
invocations emits exactly one `[DONE]` marker as the last line, and a
timed-out invocation terminates with exactly the marker. -/
theorem c5_sse_done_marker_witness :
    ((Server.runStream { done := false, start := 0, timeout := 60000 }
          (QueueProvider.make 60000 0)
          [StreamEv.pushEv (OutputChunk.TextDelta "Hel" "gpt-4" 5) 1,
           StreamEv.invoke "cid" 5 2, StreamEv.endEv,
           StreamEv.invoke "cid" 5 3, StreamEv.invoke "cid" 5 4]).1.count
        ChatCompletionsSSEEncoder.done_marker = 1
      ∧ (Server.runStream { done := false, start := 0, timeout := 60000 }
          (QueueProvider.make 60000 0)
          [StreamEv.pushEv (OutputChunk.TextDelta "Hel" "gpt-4" 5) 1,
           StreamEv.invoke "cid" 5 2, StreamEv.endEv,
           StreamEv.invoke "cid" 5 3, StreamEv.invoke "cid" 5 4]).1.getLast?
        = some ChatCompletionsSSEEncoder.done_marker)
    ∧ (Server.runStream { done := false, start := 0, timeout := 60000 }
          (QueueProvider.make 60000 0) []).1.count
        ChatCompletionsSSEEncoder.done_marker = 0
    ∧ (Server.chunkedContentProviderStep { done := false, start := 0, timeout := 60000 }
          (QueueProvider.make 60000 0) "cid" 5 70000).1
        = [ChatCompletionsSSEEncoder.done_marker] :=
  ⟨(c5_sse_done_marker 0 60000 (QueueProvider.make 60000 0)
      [StreamEv.pushEv (OutputChunk.TextDelta "Hel" "gpt-4" 5) 1,
       StreamEv.invoke "cid" 5 2, StreamEv.endEv,
       StreamEv.invoke "cid" 5 3, StreamEv.invoke "cid" 5 4]).2.2.1 rfl,
   (c5_sse_done_marker 0 60000 (QueueProvider.make 60000 0) []).2.1 rfl,
   (c5_sse_done_marker 0 60000 (QueueProvider.make 60000 0) []).2.2.2
     { done := false, start := 0, timeout := 60000 }
     (QueueProvider.make 60000 0) "cid" 5 70000 rfl rfl⟩

/-- `push` never touches `disconnected_`. -/
theorem push_disconnected (s : QueueProvider) (c : OutputChunk) (now : Nat) :
    ((QueueProvider.push s c now).2).disconnected = s.disconnected := by
  unfold QueueProvider.push
  by_cases he : (s.ended || s.disconnected) = true
  · simp [he]
  · rcases check_timeout_cases s now with hc | ⟨_, hc⟩
    · simp [he, hc]
    · simp [he, hc]

/-- `popLocked` never touches `disconnected_`. -/
theorem popLocked_disconnected (s : QueueProvider) (now : Nat) :
    ((QueueProvider.popLocked s now).2).disconnected = s.disconnected := by
  unfold QueueProvider.popLocked
  rcases check_timeout_cases s now with hc | ⟨_, hc⟩
  · rw [hc]
    cases hq : s.queue <;> simp [hq]
  · rw [hc]

/-- The wait predicate never touches `disconnected_`. -/
theorem waitPred_disconnected (s : QueueProvider) (now : Nat) :
    ((QueueProvider.waitPred s now).2).disconnected = s.disconnected := by
  unfold QueueProvider.waitPred
  split
  · rfl
  · exact check_timeout_disconnected s now

/-- `wait_pop_for` never touches `disconnected_`. -/
theorem wait_pop_for_disconnected (s : QueueProvider) (now : Nat) :
    ((QueueProvider.wait_pop_for s now).2).disconnected = s.disconnected := by
  unfold QueueProvider.wait_pop_for
  split
  · rename_i s₁ heq
    have := waitPred_disconnected s now
    rw [heq] at this
    exact this
  · rename_i s₁ heq
    have h1 := waitPred_disconnected s now
    rw [heq] at h1
    exact (popLocked_disconnected s₁ now).trans h1

/-- `is_ended` never touches `disconnected_`. -/
theorem is_ended_disconnected (s : QueueProvider) (now : Nat) :
    ((QueueProvider.is_ended s now).2).disconnected = s.disconnected := by
  simpa [QueueProvider.is_ended] using check_timeout_disconnected s now

/-- One invocation of the streamed-chat producer lambda never sets the
provider's disconnected flag. -/
theorem chunkedStep_disconnected (st : StreamState) (ps : QueueProvider)
    (fid : String) (idn : Int) (now : Nat) :
    ((Server.chunkedContentProviderStep st ps fid idn now).2.2.2).disconnected
      = ps.disconnected := by
  unfold Server.chunkedContentProviderStep
  by_cases hd : st.done = true
  · rw [if_pos hd]
  · rw [if_neg hd]
    by_cases hto : st.timeout ≤ now - st.start
    · rw [if_pos hto]
    · rw [if_neg hto]
      split
      · rename_i ps₁ heq
        have := is_ended_disconnected ps now
        rw [heq] at this
        exact this
      · rename_i ps₁ heq
        have h1 := is_ended_disconnected ps now
        rw [heq] at h1
        split
        · rename_i ps₂ heq2
          have h2 := wait_pop_for_disconnected ps₁ now
          rw [heq2] at h2
          exact h2.trans h1
        · rename_i c ps₂ heq2
          have h2 := wait_pop_for_disconnected ps₁ now
          rw [heq2] at h2
          by_cases hce : c.is_end = true
          · rw [if_pos hce]
            exact h2.trans h1
          · rw [if_neg hce]
            exact h2.trans h1

/-- C6: In the streamed chat flow as implemented, nothing ever calls
`provider.disconnect()`: neither a producer-lambda invocation nor any whole
session of invocations interleaved with the callback's pushes and `end()`
changes the provider's disconnected flag.  (When the HTTP library reports
the client gone it simply stops invoking the lambda; the callback's pushes
keep succeeding until the idle timeout ends the provider.) -/
theorem c6_stream_never_disconnects (st : StreamState) (ps : QueueProvider)
    (fid : String) (idn : Int) (now : Nat) (evs : List StreamEv) :
    ((Server.chunkedContentProviderStep st ps fid idn now).2.2.2).disconnected
        = ps.disconnected
    ∧ ((Server.runStream st ps evs).2.2).disconnected = ps.disconnected := by
  refine ⟨chunkedStep_disconnected st ps fid idn now, ?_⟩
  induction evs generalizing st ps with
  | nil => rfl
  | cons ev rest ih =>
    cases ev with
    | invoke f i n =>
      simp only [Server.runStream]
      exact (ih _ _).trans (chunkedStep_disconnected st ps f i n)
    | pushEv c n =>
      simp only [Server.runStream]
      exact (ih _ _).trans (push_disconnected ps c n)
    | endEv =>
      simp only [Server.runStream]
      exact (ih _ _).trans rfl

/-! The model router (`router.cpp`).  Callbacks are opaque values of a
type parameter; each modality has its own `std::map`, embedded as an
association list with `std::map`'s insert-or-overwrite assignment. -/

/-- `std::map::operator[]` assignment: overwrite the existing entry for
the key or append a new one. -/
def AssocMap.insert {α : Type} : List (String × α) → String → α → List (String × α)
  | [], k, v => [(k, v)]
  | (k', v') :: rest, k, v =>
      if k' = k then (k, v) :: rest else (k', v') :: AssocMap.insert rest k v

/-- `std::map::find`. -/
def AssocMap.find? {α : Type} : List (String × α) → String → Option α
  | [], _ => none
  | (k', v') :: rest, k => if k' = k then some v' else AssocMap.find? rest k

/-- `std::map::erase`. -/
def AssocMap.erase {α : Type} : List (String × α) → String → List (String × α)
  | [], _ => []
  | (k', v') :: rest, k => if k' = k then rest else (k', v') :: AssocMap.erase rest k

/-- Looking up a key just inserted yields the inserted value. -/
theorem AssocMap.find?_insert {α : Type} (m : List (String × α)) (k : String) (v : α) :
    AssocMap.find? (AssocMap.insert m k v) k = some v := by
  induction m with
  | nil => simp [AssocMap.insert, AssocMap.find?]
  | cons kv rest ih =>
    by_cases hk : kv.1 = k
    · simp [AssocMap.insert, AssocMap.find?, hk]
    · simp [AssocMap.insert, AssocMap.find?, hk, ih]

/-- `ModelRouter` (`router.hpp`/`router.cpp`): five per-modality maps from
model name to callback.  The callback types are opaque type parameters. -/
structure ModelRouter (Cb : Type) where
  chat_models : List (String × Cb)
  embedding_models : List (String × Cb)
  asr_models : List (String × Cb)
  tts_models : List (String × Cb)
  image_gen_models : List (String × Cb)

/-- The router constructed with all maps empty. -/
def ModelRouter.empty (Cb : Type) : ModelRouter Cb := ⟨[], [], [], [], []⟩

/-- `ModelRouter::registerChat`: `chat_models_[model_name] = callback`. -/
def ModelRouter.registerChat {Cb : Type} (r : ModelRouter Cb)
    (model_name : String) (callback : Cb) : ModelRouter Cb :=
  { r with chat_models := AssocMap.insert r.chat_models model_name callback }

/-- `ModelRouter::registerEmbedding`. -/
def ModelRouter.registerEmbedding {Cb : Type} (r : ModelRouter Cb)
    (model_name : String) (callback : Cb) : ModelRouter Cb :=
  { r with embedding_models := AssocMap.insert r.embedding_models model_name callback }

/-- `ModelRouter::registerASR`. -/
def ModelRouter.registerASR {Cb : Type} (r : ModelRouter Cb)
    (model_name : String) (callback : Cb) : ModelRouter Cb :=
  { r with asr_models := AssocMap.insert r.asr_models model_name callback }

/-- `ModelRouter::registerTTS`. -/
def ModelRouter.registerTTS {Cb : Type} (r : ModelRouter Cb)
    (model_name : String) (callback : Cb) : ModelRouter Cb :=
  { r with tts_models := AssocMap.insert r.tts_models model_name callback }

/-- `ModelRouter::registerImageGeneration`. -/
def ModelRouter.registerImageGeneration {Cb : Type} (r : ModelRouter Cb)
    (model_name : String) (callback : Cb) : ModelRouter Cb :=
  { r with image_gen_models := AssocMap.insert r.image_gen_models model_name callback }

/-- C7 counterexample: registering `"m"` twice in the chat modality is not
rejected — the second registration overwrites the first callback (opaque
callbacks 1 and 2), so the previously stored callback is not unchanged. -/
theorem c7_register_overwrites_counterexample :
    AssocMap.find?
        ((ModelRouter.registerChat
            (ModelRouter.registerChat (ModelRouter.empty Nat) "m" 1) "m" 2).chat_models) "m"
      = some 2
    ∧ AssocMap.find?
        ((ModelRouter.registerChat
            (ModelRouter.registerChat (ModelRouter.empty Nat) "m" 1) "m" 2).chat_models) "m"
      ≠ some 1 :=
  ⟨rfl, by decide⟩

/-- C7 (amended): registering under an already-registered (modality, name)
pair silently overwrites — the new callback replaces the old and
registration never fails; the same name in a different modality lives in an
independent map, so registration there neither fails nor affects the other
modality's entry. -/
theorem c7_register_overwrite_amended (Cb : Type) (r : ModelRouter Cb)
    (n : String) (c₁ c₂ : Cb) :
    AssocMap.find? ((ModelRouter.registerChat
        (ModelRouter.registerChat r n c₁) n c₂).chat_models) n = some c₂
    ∧ AssocMap.find? ((ModelRouter.registerEmbedding
        (ModelRouter.registerEmbedding r n c₁) n c₂).embedding_models) n = some c₂
    ∧ AssocMap.find? ((ModelRouter.registerASR
        (ModelRouter.registerASR r n c₁) n c₂).asr_models) n = some c₂
    ∧ AssocMap.find? ((ModelRouter.registerTTS
        (ModelRouter.registerTTS r n c₁) n c₂).tts_models) n = some c₂
    ∧ AssocMap.find? ((ModelRouter.registerImageGeneration
        (ModelRouter.registerImageGeneration r n c₁) n c₂).image_gen_models) n = some c₂
    ∧ (ModelRouter.registerEmbedding r n c₁).chat_models = r.chat_models
    ∧ (ModelRouter.registerASR r n c₁).chat_models = r.chat_models
    ∧ (ModelRouter.registerTTS r n c₁).chat_models = r.chat_models
    ∧ (ModelRouter.registerImageGeneration r n c₁).chat_models = r.chat_models
    ∧ (ModelRouter.registerChat r n c₁).embedding_models = r.embedding_models
    ∧ (ModelRouter.registerASR r n c₁).embedding_models = r.embedding_models
    ∧ (ModelRouter.registerTTS r n c₁).embedding_models = r.embedding_models
    ∧ (ModelRouter.registerImageGeneration r n c₁).embedding_models = r.embedding_models
    ∧ (ModelRouter.registerChat r n c₁).asr_models = r.asr_models
    ∧ (ModelRouter.registerEmbedding r n c₁).asr_models = r.asr_models
    ∧ (ModelRouter.registerTTS r n c₁).asr_models = r.asr_models
    ∧ (ModelRouter.registerImageGeneration r n c₁).asr_models = r.asr_models
    ∧ (ModelRouter.registerChat r n c₁).tts_models = r.tts_models
    ∧ (ModelRouter.registerEmbedding r n c₁).tts_models = r.tts_models
    ∧ (ModelRouter.registerASR r n c₁).tts_models = r.tts_models
    ∧ (ModelRouter.registerImageGeneration r n c₁).tts_models = r.tts_models
    ∧ (ModelRouter.registerChat r n c₁).image_gen_models = r.image_gen_models
    ∧ (ModelRouter.registerEmbedding r n c₁).image_gen_models = r.image_gen_models
    ∧ (ModelRouter.registerASR r n c₁).image_gen_models = r.image_gen_models
    ∧ (ModelRouter.registerTTS r n c₁).image_gen_models = r.image_gen_models :=
  ⟨AssocMap.find?_insert _ n c₂, AssocMap.find?_insert _ n c₂,
   AssocMap.find?_insert _ n c₂, AssocMap.find?_insert _ n c₂,
   AssocMap.find?_insert _ n c₂,
   rfl, rfl, rfl, rfl, rfl, rfl, rfl, rfl, rfl, rfl, rfl, rfl,
   rfl, rfl, rfl, rfl, rfl, rfl, rfl, rfl⟩

/-! The master-side worker manager (`cluster/worker_manager.cpp`).  The
`on_model_unregistered` callback is modelled by returning the list of model
names it is invoked on; timestamps are steady-clock milliseconds, so the
C++ 30-second heartbeat threshold is 30000. -/

/-- `WorkerConnection` (`cluster/worker_manager.hpp`), without the cached
HTTP client handle. -/
structure WorkerConnection where
  worker_host : String
  worker_port : Int
  last_heartbeat : Nat
  registered_models : List String

/-- `RemoteRequestContext`: one pending forwarded request. -/
structure RemoteRequestContext where
  request_id : String
  provider : QueueProvider
  start_time : Nat
  completed : Bool

/-- The three maps the `WorkerManager` owns under one mutex. -/
structure WorkerManager where
  workers : List (String × WorkerConnection)
  model_to_worker : List (String × String)
  pending_requests : List (String × RemoteRequestContext)

/-- `WorkerManager::unregister_worker`: erase the worker, erase each of its
models from `model_to_worker_`, and invoke `on_model_unregistered_` once
per model (returned as the second component). -/
def WorkerManager.unregister_worker (m : WorkerManager) (worker_id : String) :
    WorkerManager × List String :=
  match AssocMap.find? m.workers worker_id with
  | none => (m, [])
  | some conn =>
    ({ m with
        model_to_worker := conn.registered_models.foldl
          (fun mw mo => AssocMap.erase mw mo) m.model_to_worker,
        workers := AssocMap.erase m.workers worker_id },
     conn.registered_models)

/-- `WorkerManager::cleanup_dead_workers`: collect the workers whose
`last_heartbeat` is more than 30 s old, then for each erase its models from
`model_to_worker_` and erase the worker.  The loop body contains no call to
`on_model_unregistered_`, so the invocation list is empty. -/
def WorkerManager.cleanup_dead_workers (m : WorkerManager) (now : Nat) :
    WorkerManager × List String :=
  let dead := (m.workers.filter fun w => 30000 < now - w.2.last_heartbeat).map Prod.fst
  let m' := dead.foldl (fun acc id =>
      match AssocMap.find? acc.workers id with
      | none => acc
      | some conn =>
        { acc with
            model_to_worker := conn.registered_models.foldl
              (fun mw mo => AssocMap.erase mw mo) acc.model_to_worker,
            workers := AssocMap.erase acc.workers id }) m
  (m', [])

/-- `WorkerManager::handle_worker_response`: look up and remove the pending
context; on error push an error chunk, otherwise replay `chunks` as
text-delta / final-text chunks or push the single `text` as a final text —
there is no branch for `embeddings` or `bytes_b64` payloads — then `end()`.
Returns the updated manager and the driven provider (none when the
request id was unknown and the frame dropped).  `now` is the steady-clock
reading used by the pushes, `tNow` the `std::time` reading of the error
factory. -/
def WorkerManager.handle_worker_response (m : WorkerManager) (request_id : String)
    (response : Json) (is_error : Bool) (now : Nat) (tNow : Int) :
    WorkerManager × Option QueueProvider :=
  match AssocMap.find? m.pending_requests request_id with
  | none => (m, none)
  | some context =>
    let m₁ := { m with pending_requests := AssocMap.erase m.pending_requests request_id }
    if is_error then
      let code := Json.valueStr response "error_code" "worker_error"
      let msg := Json.valueStr response "error_message" "Unknown error"
      let p := (QueueProvider.push context.provider (OutputChunk.Error code msg tNow) now).2
      (m₁, some (QueueProvider.end' p))
    else
      let p :=
        if Json.containsKey response "chunks" then
          (Json.getArr response "chunks").foldl (fun p chunk_data =>
            let c0 : OutputChunk := { OutputChunk.defaultChunk with
              type := if Json.valueBool chunk_data "is_delta" true
                      then OutputChunkType.TextDelta else OutputChunkType.FinalText,
              text := Json.valueStr chunk_data "text" "" }
            let fr := Json.str (Json.valueStr chunk_data "finish_reason" "")
            let c := if Json.containsKey chunk_data "finish_reason"
                     then { c0 with obj := Json.setKey c0.obj "finish_reason" fr }
                     else c0
            (QueueProvider.push p c now).2) context.provider
        else
          (QueueProvider.push context.provider
            { OutputChunk.defaultChunk with
              type := OutputChunkType.FinalText,
              text := Json.valueStr response "text" "" } now).2
      (m₁, some (QueueProvider.end' p))

/-- C8 evaluation: a sweeper pass over a worker `"w1"` owning model `"m1"`
whose heartbeat is 31 s old removes the worker and the model mapping but
invokes the `on_model_unregistered` callback zero times, while
`unregister_worker` — which implements the claimed behavior and has no
caller — would have invoked it once for `"m1"`. -/
theorem c8_cleanup_no_callback_eval :
    (WorkerManager.cleanup_dead_workers
        { workers := [("w1", { worker_host := "10.0.0.2", worker_port := 28080,
                               last_heartbeat := 0, registered_models := ["m1"] })],
          model_to_worker := [("m1", "w1")], pending_requests := [] } 31000).1.workers = []
    ∧ (WorkerManager.cleanup_dead_workers
        { workers := [("w1", { worker_host := "10.0.0.2", worker_port := 28080,
                               last_heartbeat := 0, registered_models := ["m1"] })],
          model_to_worker := [("m1", "w1")], pending_requests := [] } 31000).1.model_to_worker = []
    ∧ (WorkerManager.cleanup_dead_workers
        { workers := [("w1", { worker_host := "10.0.0.2", worker_port := 28080,
                               last_heartbeat := 0, registered_models := ["m1"] })],
          model_to_worker := [("m1", "w1")], pending_requests := [] } 31000).2 = []
    ∧ (WorkerManager.unregister_worker
        { workers := [("w1", { worker_host := "10.0.0.2", worker_port := 28080,
                               last_heartbeat := 0, registered_models := ["m1"] })],
          model_to_worker := [("m1", "w1")], pending_requests := [] } "w1").2 = ["m1"] :=
  ⟨rfl, rfl, rfl, rfl⟩

/-- C9 evaluation: a `FORWARD_RESPONSE` for pending request `"r1"` with
`is_error = false` whose payload is `{"embeddings":[[1,2]]}` drives the
consumer provider with a single `FinalText` chunk with empty text, no
embedding data and no bytes (the payload falls into the plain-`text`
branch); likewise `{"bytes_b64":"AQI=","mime_type":"image/png"}` yields a
`FinalText` with no decoded bytes.  No batch-embeddings or bytes event is
ever pushed. -/
theorem c9_forward_response_drops_embeddings_eval :
    ((WorkerManager.handle_worker_response
        { workers := [], model_to_worker := [],
          pending_requests := [("r1",
            { request_id := "r1", provider := QueueProvider.make 60000 0, start_time := 0, completed := false })] }
        "r1" (Json.obj [("embeddings", Json.arr [Json.arr [Json.num 1, Json.num 2]])])
        false 1 0).2.map (fun p => p.queue.map OutputChunk.type))
      = some [OutputChunkType.FinalText]
    ∧ ((WorkerManager.handle_worker_response
        { workers := [], model_to_worker := [],
          pending_requests := [("r1",
            { request_id := "r1", provider := QueueProvider.make 60000 0, start_time := 0, completed := false })] }
        "r1" (Json.obj [("embeddings", Json.arr [Json.arr [Json.num 1, Json.num 2]])])
        false 1 0).2.map (fun p => p.queue.map OutputChunk.text))
      = some [""]
    ∧ ((WorkerManager.handle_worker_response
        { workers := [], model_to_worker := [],
          pending_requests := [("r1",
            { request_id := "r1", provider := QueueProvider.make 60000 0, start_time := 0, completed := false })] }
        "r1" (Json.obj [("embeddings", Json.arr [Json.arr [Json.num 1, Json.num 2]])])
        false 1 0).2.map (fun p => p.queue.map OutputChunk.embeds))
      = some [[]]
    ∧ ((WorkerManager.handle_worker_response
        { workers := [], model_to_worker := [],
          pending_requests := [("r1",
            { request_id := "r1", provider := QueueProvider.make 60000 0, start_time := 0, completed := false })] }
        "r1" (Json.obj [("bytes_b64", Json.str "AQI="), ("mime_type", Json.str "image/png")])
        false 1 0).2.map (fun p => p.queue.map OutputChunk.type))
      = some [OutputChunkType.FinalText]
    ∧ ((WorkerManager.handle_worker_response
        { workers := [], model_to_worker := [],
          pending_requests := [("r1",
            { request_id := "r1", provider := QueueProvider.make 60000 0, start_time := 0, completed := false })] }
        "r1" (Json.obj [("bytes_b64", Json.str "AQI="), ("mime_type", Json.str "image/png")])
        false 1 0).2.map (fun p => p.queue.map OutputChunk.bytes))
      = some [[]] :=
  ⟨rfl, rfl, rfl, rfl, rfl⟩

/-! The two base64 encoders: `ImagesJSONEncoder::base64_encode`
(`encoder/encoder.hpp`) and the anonymous-namespace `base64_encode` of
`cluster/worker_client.cpp`. -/

/-- Shifting right distributes over bitwise or. -/
theorem nat_shiftRight_or_distrib (a b i : Nat) :
    (a ||| b) >>> i = a >>> i ||| b >>> i := by
  apply Nat.eq_of_testBit_eq
  intro k
  simp [Nat.testBit_shiftRight, Nat.testBit_or]

/-- Shifting right distributes over bitwise and. -/
theorem nat_shiftRight_and_distrib (a b i : Nat) :
    (a &&& b) >>> i = a >>> i &&& b >>> i := by
  apply Nat.eq_of_testBit_eq
  intro k
  simp [Nat.testBit_shiftRight, Nat.testBit_and]

/-- Masking distributes over bitwise or. -/
theorem nat_and_or_distrib_right (a b m : Nat) :
    (a ||| b) &&& m = (a &&& m) ||| (b &&& m) := by
  apply Nat.eq_of_testBit_eq
  intro k
  simp only [Nat.testBit_and, Nat.testBit_or]
  cases a.testBit k <;> cases b.testBit k <;> cases m.testBit k <;> rfl

/-- Mask by 3 is mod 4. -/
theorem nat_and_3 (x : Nat) : x &&& 3 = x % 4 := by
  have := Nat.and_pow_two_sub_one_eq_mod x 2
  norm_num at this
  exact this

/-- Mask by 15 is mod 16. -/
theorem nat_and_15 (x : Nat) : x &&& 15 = x % 16 := by
  have := Nat.and_pow_two_sub_one_eq_mod x 4
  norm_num at this
  exact this

/-- Mask by 63 is mod 64. -/
theorem nat_and_63 (x : Nat) : x &&& 63 = x % 64 := by
  have := Nat.and_pow_two_sub_one_eq_mod x 6
  norm_num at this
  exact this

/-- Adding a value below 16 into the low bits of a multiple of 16 below 64
is bitwise or. -/
theorem nat_add_eq_or_16 : ∀ u, u < 4 → ∀ v, v < 16 → u * 16 + v = (u * 16) ||| v := by
  decide

/-- Adding a value below 4 into the low bits of a multiple of 4 below 64
is bitwise or. -/
theorem nat_add_eq_or_4 : ∀ u, u < 16 → ∀ v, v < 4 → u * 4 + v = (u * 4) ||| v := by
  decide

/-- The character table of `ImagesJSONEncoder::base64_encode`. -/
def ImagesJSONEncoder.base64_chars : String :=
  "ABCDEFGHIJKLMNOPQRSTUVWXYZabcdefghijklmnopqrstuvwxyz0123456789+/"

/-- Indexing into the images encoder's table (the C++ index is always below
64; the default is never used). -/
def ImagesJSONEncoder.b64char (i : Nat) : Char :=
  ImagesJSONEncoder.base64_chars.data.getD i 'A'

/-- One iteration of the byte loop of `ImagesJSONEncoder::base64_encode`:
the byte joins `array_3`; when three bytes are buffered the four output
characters are appended and the buffer cleared. -/
def ImagesJSONEncoder.base64_step (s : List Char × List Nat) (c : Nat) :
    List Char × List Nat :=
  match s.2 ++ [c] with
  | [b0, b1, b2] =>
      (s.1 ++ [ImagesJSONEncoder.b64char ((b0 &&& 0xfc) >>> 2),
               ImagesJSONEncoder.b64char (((b0 &&& 0x03) <<< 4) + ((b1 &&& 0xf0) >>> 4)),
               ImagesJSONEncoder.b64char (((b1 &&& 0x0f) <<< 2) + ((b2 &&& 0xc0) >>> 6)),
               ImagesJSONEncoder.b64char (b2 &&& 0x3f)], [])
  | buf => (s.1, buf)

/-- The tail of `ImagesJSONEncoder::base64_encode` (`if (i) {...}`): the
leftover bytes are zero-padded to three, `i + 1` characters are emitted and
`=` padding added. -/
def ImagesJSONEncoder.base64_tail : List Nat → List Char
  | [b0] =>
      [ImagesJSONEncoder.b64char ((b0 &&& 0xfc) >>> 2),
       ImagesJSONEncoder.b64char (((b0 &&& 0x03) <<< 4) + ((0 &&& 0xf0) >>> 4)),
       '=', '=']
  | [b0, b1] =>
      [ImagesJSONEncoder.b64char ((b0 &&& 0xfc) >>> 2),
       ImagesJSONEncoder.b64char (((b0 &&& 0x03) <<< 4) + ((b1 &&& 0xf0) >>> 4)),
       ImagesJSONEncoder.b64char (((b1 &&& 0x0f) <<< 2) + ((0 &&& 0xc0) >>> 6)),
       '=']
  | _ => []

/-- `ImagesJSONEncoder::base64_encode`. -/
def ImagesJSONEncoder.base64_encode (data : List Nat) : String :=
  String.mk ((data.foldl ImagesJSONEncoder.base64_step ([], [])).1
    ++ ImagesJSONEncoder.base64_tail (data.foldl ImagesJSONEncoder.base64_step ([], [])).2)

/-- The character table `kChars` of `cluster/worker_client.cpp`. -/
def cluster.kChars : String :=
  "ABCDEFGHIJKLMNOPQRSTUVWXYZabcdefghijklmnopqrstuvwxyz0123456789+/"

/-- Indexing into the cluster encoder's table. -/
def cluster.kchr (i : Nat) : Char := cluster.kChars.data.getD i 'A'

/-- The while-loop plus remainder handling of the cluster `base64_encode`:
three bytes at a time are packed into the 24-bit word `n` and its four
6-bit fields emitted; a remainder of one or two bytes is emitted with `=`
padding. -/
def cluster.base64_core : List Nat → List Char
  | b0 :: b1 :: b2 :: rest =>
      [cluster.kchr ((((b0 <<< 16) ||| (b1 <<< 8) ||| b2) >>> 18) &&& 0x3F),
       cluster.kchr ((((b0 <<< 16) ||| (b1 <<< 8) ||| b2) >>> 12) &&& 0x3F),
       cluster.kchr ((((b0 <<< 16) ||| (b1 <<< 8) ||| b2) >>> 6) &&& 0x3F),
       cluster.kchr (((b0 <<< 16) ||| (b1 <<< 8) ||| b2) &&& 0x3F)]
        ++ cluster.base64_core rest
  | [b0] =>
      [cluster.kchr (((b0 <<< 16) >>> 18) &&& 0x3F),
       cluster.kchr (((b0 <<< 16) >>> 12) &&& 0x3F), '=', '=']
  | [b0, b1] =>
      [cluster.kchr ((((b0 <<< 16) ||| (b1 <<< 8)) >>> 18) &&& 0x3F),
       cluster.kchr ((((b0 <<< 16) ||| (b1 <<< 8)) >>> 12) &&& 0x3F),
       cluster.kchr ((((b0 <<< 16) ||| (b1 <<< 8)) >>> 6) &&& 0x3F), '=']
  | [] => []

/-- `cluster::(anonymous)::base64_encode`. -/
def cluster.base64_encode (data : List Nat) : String :=
  String.mk (cluster.base64_core data)

/-- The two tables are the same string, so the two index functions agree. -/
theorem b64char_eq_kchr (i : Nat) : ImagesJSONEncoder.b64char i = cluster.kchr i := rfl

/-- First output character: the images encoder's `(b0 & 0xfc) >> 2` equals
the cluster encoder's `(n >> 18) & 0x3F`. -/
theorem b64_idx0 (b0 b1 b2 : Nat) (h1 : b1 < 256) (h2 : b2 < 256) :
    (b0 &&& 0xfc) >>> 2 = (((b0 <<< 16) ||| (b1 <<< 8) ||| b2) >>> 18) &&& 0x3F := by
  rw [nat_shiftRight_or_distrib, nat_shiftRight_or_distrib,
      nat_and_or_distrib_right, nat_and_or_distrib_right]
  have hx : (b0 <<< 16) >>> 18 = b0 / 4 := by
    rw [Nat.shiftLeft_eq, Nat.shiftRight_eq_div_pow]; omega
  have hy : (b1 <<< 8) >>> 18 = 0 := by
    rw [Nat.shiftLeft_eq, Nat.shiftRight_eq_div_pow]; omega
  have hz : b2 >>> 18 = 0 := by
    rw [Nat.shiftRight_eq_div_pow]; omega
  rw [hx, hy, hz]
  have hfc : (b0 &&& 0xfc) >>> 2 = (b0 >>> 2) &&& 63 := by
    rw [nat_shiftRight_and_distrib]
    rw [show (252 : Nat) >>> 2 = 63 from by decide]
  rw [hfc, Nat.shiftRight_eq_div_pow]
  norm_num [Nat.zero_and, Nat.or_zero]

/-- Second output character: `((b0 & 0x03) << 4) + ((b1 & 0xf0) >> 4)`
equals `(n >> 12) & 0x3F`. -/
theorem b64_idx1 (b0 b1 b2 : Nat) (h1 : b1 < 256) (h2 : b2 < 256) :
    ((b0 &&& 0x03) <<< 4) + ((b1 &&& 0xf0) >>> 4)
      = (((b0 <<< 16) ||| (b1 <<< 8) ||| b2) >>> 12) &&& 0x3F := by
  rw [nat_shiftRight_or_distrib, nat_shiftRight_or_distrib,
      nat_and_or_distrib_right, nat_and_or_distrib_right]
  have hx : (b0 <<< 16) >>> 12 = b0 * 16 := by
    rw [Nat.shiftLeft_eq, Nat.shiftRight_eq_div_pow]; omega
  have hy : (b1 <<< 8) >>> 12 = b1 / 16 := by
    rw [Nat.shiftLeft_eq, Nat.shiftRight_eq_div_pow]; omega
  have hz : b2 >>> 12 = 0 := by
    rw [Nat.shiftRight_eq_div_pow]; omega
  rw [hx, hy, hz]
  have hlhs : ((b0 &&& 0x03) <<< 4) + ((b1 &&& 0xf0) >>> 4)
      = (b0 % 4) * 16 + b1 / 16 := by
    rw [nat_and_3, Nat.shiftLeft_eq, nat_shiftRight_and_distrib,
        Nat.shiftRight_eq_div_pow]
    have : (0xf0 : Nat) >>> 4 = 15 := by decide
    rw [this, nat_and_15]
    have : b1 / 2 ^ 4 % 16 = b1 / 16 := by omega
    rw [this]
  rw [hlhs]
  have h63a : (b0 * 16) &&& 63 = (b0 % 4) * 16 := by rw [nat_and_63]; omega
  have h63b : (b1 / 16) &&& 63 = b1 / 16 := by rw [nat_and_63]; omega
  rw [h63a, h63b, Nat.zero_and, Nat.or_zero]
  exact nat_add_eq_or_16 (b0 % 4) (by omega) (b1 / 16) (by omega)

/-- Third output character: `((b1 & 0x0f) << 2) + ((b2 & 0xc0) >> 6)`
equals `(n >> 6) & 0x3F`. -/
theorem b64_idx2 (b0 b1 b2 : Nat) (h1 : b1 < 256) (h2 : b2 < 256) :
    ((b1 &&& 0x0f) <<< 2) + ((b2 &&& 0xc0) >>> 6)
      = (((b0 <<< 16) ||| (b1 <<< 8) ||| b2) >>> 6) &&& 0x3F := by
  rw [nat_shiftRight_or_distrib, nat_shiftRight_or_distrib,
      nat_and_or_distrib_right, nat_and_or_distrib_right]
  have hx : (b0 <<< 16) >>> 6 = b0 * 1024 := by
    rw [Nat.shiftLeft_eq, Nat.shiftRight_eq_div_pow]; omega
  have hy : (b1 <<< 8) >>> 6 = b1 * 4 := by
    rw [Nat.shiftLeft_eq, Nat.shiftRight_eq_div_pow]; omega
  have hz : b2 >>> 6 = b2 / 64 := by
    rw [Nat.shiftRight_eq_div_pow]
  rw [hx, hy, hz]
  have hlhs : ((b1 &&& 0x0f) <<< 2) + ((b2 &&& 0xc0) >>> 6)
      = (b1 % 16) * 4 + b2 / 64 := by
    rw [nat_and_15, Nat.shiftLeft_eq, nat_shiftRight_and_distrib,
        Nat.shiftRight_eq_div_pow]
    have : (0xc0 : Nat) >>> 6 = 3 := by decide
    rw [this, nat_and_3]
    have : b2 / 2 ^ 6 % 4 = b2 / 64 := by omega
    rw [this]
  rw [hlhs]
  have h63a : (b0 * 1024) &&& 63 = 0 := by rw [nat_and_63]; omega
  have h63b : (b1 * 4) &&& 63 = (b1 % 16) * 4 := by rw [nat_and_63]; omega
  have h63c : (b2 / 64) &&& 63 = b2 / 64 := by rw [nat_and_63]; omega
  rw [h63a, h63b, h63c, Nat.zero_or]
  exact nat_add_eq_or_4 (b1 % 16) (by omega) (b2 / 64) (by omega)

/-- Fourth output character: `b2 & 0x3f` equals `n & 0x3F`. -/
theorem b64_idx3 (b0 b1 b2 : Nat) (h1 : b1 < 256) (h2 : b2 < 256) :
    b2 &&& 0x3f = ((b0 <<< 16) ||| (b1 <<< 8) ||| b2) &&& 0x3F := by
  rw [nat_and_or_distrib_right, nat_and_or_distrib_right]
  have h63a : (b0 <<< 16) &&& 63 = 0 := by
    rw [Nat.shiftLeft_eq, nat_and_63]; omega
  have h63b : (b1 <<< 8) &&& 63 = 0 := by
    rw [Nat.shiftLeft_eq, nat_and_63]; omega
  rw [h63a, h63b, Nat.zero_or, Nat.zero_or]

/-- A step with an empty buffer just buffers the byte. -/
theorem base64_step_empty (acc : List Char) (b : Nat) :
    ImagesJSONEncoder.base64_step (acc, []) b = (acc, [b]) := rfl

/-- A step with one buffered byte buffers the second. -/
theorem base64_step_one (acc : List Char) (b0 b : Nat) :
    ImagesJSONEncoder.base64_step (acc, [b0]) b = (acc, [b0, b]) := rfl

/-- A step with two buffered bytes emits the four-character block. -/
theorem base64_step_two (acc : List Char) (b0 b1 b : Nat) :
    ImagesJSONEncoder.base64_step (acc, [b0, b1]) b
      = (acc ++ [ImagesJSONEncoder.b64char ((b0 &&& 0xfc) >>> 2),
                 ImagesJSONEncoder.b64char (((b0 &&& 0x03) <<< 4) + ((b1 &&& 0xf0) >>> 4)),
                 ImagesJSONEncoder.b64char (((b1 &&& 0x0f) <<< 2) + ((b &&& 0xc0) >>> 6)),
                 ImagesJSONEncoder.b64char (b &&& 0x3f)], []) := rfl

/-- The byte loop plus tail of the images encoder produce exactly the
cluster encoder's output, three bytes at a time. -/
theorem base64_chunk_aux (n : Nat) : ∀ (l : List Nat), l.length ≤ n →
    ∀ (acc : List Char), (∀ b ∈ l, b < 256) →
      (l.foldl ImagesJSONEncoder.base64_step (acc, [])).1
          ++ ImagesJSONEncoder.base64_tail
              (l.foldl ImagesJSONEncoder.base64_step (acc, [])).2
        = acc ++ cluster.base64_core l := by
  induction n with
  | zero =>
    intro l hl acc hb
    have : l = [] := List.length_eq_zero.mp (Nat.le_zero.mp hl)
    subst this
    simp [ImagesJSONEncoder.base64_tail, cluster.base64_core]
  | succ n ih =>
    intro l hl acc hb
    rcases l with _ | ⟨b0, _ | ⟨b1, _ | ⟨b2, rest⟩⟩⟩
    · simp [ImagesJSONEncoder.base64_tail, cluster.base64_core]
    · simp only [List.foldl, base64_step_empty, ImagesJSONEncoder.base64_tail,
                 cluster.base64_core]
      have e0 : (b0 &&& 0xfc) >>> 2 = ((b0 <<< 16) >>> 18) &&& 0x3F := by
        have := b64_idx0 b0 0 0 (by norm_num) (by norm_num)
        simpa [Nat.zero_shiftLeft, Nat.or_zero] using this
      have e1 : ((b0 &&& 0x03) <<< 4) + ((0 &&& 0xf0) >>> 4)
          = ((b0 <<< 16) >>> 12) &&& 0x3F := by
        have := b64_idx1 b0 0 0 (by norm_num) (by norm_num)
        simpa [Nat.zero_shiftLeft, Nat.or_zero] using this
      simp only [b64char_eq_kchr]
      rw [e0, e1]
    · have hb1 : b1 < 256 := hb b1 (by simp)
      simp only [List.foldl, base64_step_empty, base64_step_one,
                 ImagesJSONEncoder.base64_tail, cluster.base64_core]
      have e0 : (b0 &&& 0xfc) >>> 2
          = (((b0 <<< 16) ||| (b1 <<< 8)) >>> 18) &&& 0x3F := by
        have := b64_idx0 b0 b1 0 hb1 (by norm_num)
        simpa [Nat.or_zero] using this
      have e1 : ((b0 &&& 0x03) <<< 4) + ((b1 &&& 0xf0) >>> 4)
          = (((b0 <<< 16) ||| (b1 <<< 8)) >>> 12) &&& 0x3F := by
        have := b64_idx1 b0 b1 0 hb1 (by norm_num)
        simpa [Nat.or_zero] using this
      have e2 : ((b1 &&& 0x0f) <<< 2) + ((0 &&& 0xc0) >>> 6)
          = (((b0 <<< 16) ||| (b1 <<< 8)) >>> 6) &&& 0x3F := by
        have := b64_idx2 b0 b1 0 hb1 (by norm_num)
        simpa [Nat.or_zero] using this
      simp only [b64char_eq_kchr]
      rw [e0, e1, e2]
    · have hb1 : b1 < 256 := hb b1 (by simp)
      have hb2 : b2 < 256 := hb b2 (by simp)
      have hrest : ∀ b ∈ rest, b < 256 := fun b hbm => hb b (by simp [hbm])
      have hlen : rest.length ≤ n := by
        simp only [List.length_cons] at hl
        omega
      simp only [List.foldl, base64_step_empty, base64_step_one, base64_step_two,
                 cluster.base64_core]
      rw [ih rest hlen _ hrest, List.append_assoc]
      congr 1
      congr 1
      simp only [b64char_eq_kchr]
      rw [b64_idx0 b0 b1 b2 hb1 hb2, b64_idx1 b0 b1 b2 hb1 hb2,
          b64_idx2 b0 b1 b2 hb1 hb2, b64_idx3 b0 b1 b2 hb1 hb2]

/-- C10: For every byte vector, the base64 encoder of the images JSON
encoder and the base64 encoder of the worker client produce the same
string (standard alphabet, `=` padding), so bytes round-trip identically on
both paths. -/
theorem c10_base64_encoders_agree (data : List Nat) (h : ∀ b ∈ data, b < 256) :
    ImagesJSONEncoder.base64_encode data = cluster.base64_encode data := by
  unfold ImagesJSONEncoder.base64_encode cluster.base64_encode
  have := base64_chunk_aux data.length data le_rfl [] h
  rw [List.nil_append] at this
  exact congrArg String.mk this

/-- Witness for C10 on the concrete bytes `[77, 97, 110, 1]`. -/
theorem c10_base64_encoders_agree_witness :
    ImagesJSONEncoder.base64_encode [77, 97, 110, 1]
      = cluster.base64_encode [77, 97, 110, 1] :=
  c10_base64_encoders_agree [77, 97, 110, 1] (by decide)
